import Mathlib

/-
  Verification development for the Viable-Dashboard document pipeline.

  The source is a Google Apps Script project.  We shallowly embed the parts
  of the code that the verified properties are about:

  * sheets are modelled as a header row (list of column names) plus a list of
    data rows; a cell is `Option String` (`none` models an empty/null cell);
  * external, fallible services (Drive operations, the lock/sheet engine) are
    modelled either by explicit success oracles or by `Option`-returning
    parameters: a `false`/`none` result models the call throwing;
  * JavaScript values that can be absent, a string or a number are modelled
    by `JSVal`; numbers are rationals.

  Definitions mirror the source functions and keep their names.
-/

/-! ## JavaScript value model -/

/-- A JavaScript value as it appears in an AI response field:
absent (`undefined`/`null`), a string, or a number (modelled as a rational). -/
inductive JSVal where
  | undef : JSVal
  | str : String → JSVal
  | num : ℚ → JSVal
deriving Repr, DecidableEq

/-- JavaScript falsiness for the values we model:
`undefined`/`null`, the empty string and the number 0 are falsy. -/
def falsy : JSVal → Bool
  | .undef => true
  | .str s => s == ""
  | .num q => q == 0

/-! ## Status constants (Config.gs, SYSTEM_CONFIG.STATUS) -/

def STATUS_ACTIVE : String := "Active"

def STATUS_DELETED : String := "Deleted"

def STATUS_FAILED : String := "Failed"

def STATUS_INFLOW : String := "inflow"

def STATUS_OUTFLOW : String := "outflow"

/-! ## String helpers -/

/-- JavaScript `String.prototype.startsWith`, since strings are sequences of
code units: the needle is a list-prefix of the haystack. -/
def strStartsWith (s pre : String) : Bool :=
  pre.toList.isPrefixOf s.toList

/-- JavaScript `String.prototype.includes`: substring containment. -/
def strIncludes (s sub : String) : Bool :=
  decide (sub.toList <:+: s.toList)

/-- ASCII lower-casing of one character (the values compared in this code are
all ASCII, so this models `toLowerCase` faithfully on its domain). -/
def jsToLowerChar (c : Char) : Char :=
  if 'A' ≤ c ∧ c ≤ 'Z' then Char.ofNat (c.toNat + 32) else c

/-- JavaScript `String.prototype.toLowerCase` on the ASCII domain. -/
def jsToLower (s : String) : String :=
  String.mk (s.toList.map jsToLowerChar)

/-- JavaScript `String.prototype.trim`: strip leading and trailing
whitespace. -/
def jsTrim (s : String) : String :=
  String.mk (((s.toList.dropWhile Char.isWhitespace).reverse.dropWhile
    Char.isWhitespace).reverse)

/-- The global character replacement `replace(x, y)` used on single
characters, as a character map. -/
def jsReplaceChar (a b : Char) (s : String) : String :=
  String.mk (s.toList.map (fun c => if c = a then b else c))

/-! ## Sheet model -/

/-- One sheet cell; `none` models an empty cell (null/undefined). -/
abbrev Cell := Option String

/-- One data row of a sheet. -/
abbrev Row := List Cell

/-- Raw tabular content of a sheet: the header row (row 1) and the data rows
(rows 2..).  `getDataRange().getValues()` corresponds to `headers :: rows`. -/
structure RawSheet where
  headers : List String
  rows : List Row
deriving Repr, DecidableEq

/-- Cell lookup inside a row by 0-based column position; out of range is an
empty cell. -/
def cellAt : Row → Nat → Cell
  | [], _ => none
  | c :: _, 0 => c
  | _ :: t, n + 1 => cellAt t n

/-- Row lookup by 0-based position among the data rows. -/
def rowAt : List Row → Nat → Row
  | [], _ => []
  | r :: _, 0 => r
  | _ :: t, n + 1 => rowAt t n

/-- Apply a function to the row at one 0-based position (no-op out of range). -/
def modifyAt (f : Row → Row) : List Row → Nat → List Row
  | [], _ => []
  | r :: t, 0 => f r :: t
  | r :: t, n + 1 => r :: modifyAt f t n

/-- Write a cell at a 0-based column position, padding the row with empty
cells if it is shorter — `Range.setValue` extends the grid as needed. -/
def setCellPad : Row → Nat → String → Row
  | [], 0, v => [some v]
  | [], n + 1, v => none :: setCellPad [] n v
  | _ :: t, 0, v => some v :: t
  | c :: t, n + 1, v => c :: setCellPad t n v

/-- Helper for `getColumnIndex`: first position of the column name, counting
from `i`; `-1` when absent. -/
def columnIndexFrom (columnName : String) : List String → Int → Int
  | [], _ => -1
  | h :: t, i => if h = columnName then i else columnIndexFrom columnName t (i + 1)

/-- Config.gs `getColumnIndex`: `headers.indexOf(columnName)`, `-1` when the
column is missing. -/
def getColumnIndex (headers : List String) (columnName : String) : Int :=
  columnIndexFrom columnName headers 0

/-- Config.gs `safeGetCellValue`: returns the default for a negative or
out-of-range index and for a null cell. -/
def safeGetCellValue (row : Row) (index : Int) (dflt : String) : String :=
  if index < 0 then dflt
  else
    match cellAt row index.toNat with
    | some v => v
    | none => dflt

/-- `sheet.getRange(rowIndex, colIdx + 1).setValue(v)` for a data row:
`rowIndex` is the 1-based grid row (header is row 1), so the data row position
is `rowIndex - 2`. -/
def setSheetCell (sheet : RawSheet) (rowIndex : Nat) (colIdx : Int) (v : String) : RawSheet :=
  { sheet with rows := modifyAt (fun r => setCellPad r colIdx.toNat v) sheet.rows (rowIndex - 2) }

/-- `sheet.getRange(rowIndex, colIdx + 1).getValue()` for a data row, an empty
cell reading as the empty string. -/
def getSheetCellValue (sheet : RawSheet) (rowIndex : Nat) (colIdx : Int) : String :=
  safeGetCellValue (rowAt sheet.rows (rowIndex - 2)) colIdx ""

/-- The `if (index !== -1) setValue(...)` pattern used by the buffer-sheet
update helpers. -/
def maybeSetCell (sheet : RawSheet) (rowIndex : Nat) (colIdx : Int) (v : String) : RawSheet :=
  if colIdx ≠ -1 then setSheetCell sheet rowIndex colIdx v else sheet

/-- `sheet.appendRow(rowData)`. -/
def appendRow (sheet : RawSheet) (row : Row) : RawSheet :=
  { sheet with rows := sheet.rows ++ [row] }

/-! ## Basic lemmas about the sheet model -/

theorem cellAt_setCellPad_self (r : Row) (i : Nat) (v : String) :
    cellAt (setCellPad r i v) i = some v := by
  induction r generalizing i with
  | nil =>
    induction i with
    | zero => rfl
    | succ n ih => simpa [setCellPad, cellAt] using ih
  | cons c t ih =>
    cases i with
    | zero => rfl
    | succ n => simpa [setCellPad, cellAt] using ih n

theorem cellAt_setCellPad_ne (r : Row) (i j : Nat) (v : String) (h : i ≠ j) :
    cellAt (setCellPad r i v) j = cellAt r j := by
  induction r generalizing i j with
  | nil =>
    induction i generalizing j with
    | zero =>
      cases j with
      | zero => exact absurd rfl h
      | succ m => rfl
    | succ n ih =>
      cases j with
      | zero => rfl
      | succ m =>
        simpa [setCellPad, cellAt] using ih m (fun hnm => h (by omega))
  | cons c t ih =>
    cases i with
    | zero =>
      cases j with
      | zero => exact absurd rfl h
      | succ m => rfl
    | succ n =>
      cases j with
      | zero => rfl
      | succ m =>
        simpa [setCellPad, cellAt] using ih n m (fun hnm => h (by omega))

theorem length_modifyAt (f : Row → Row) (l : List Row) (p : Nat) :
    (modifyAt f l p).length = l.length := by
  induction l generalizing p with
  | nil => rfl
  | cons r t ih =>
    cases p with
    | zero => rfl
    | succ n => simpa [modifyAt] using ih n

theorem rowAt_modifyAt_self (f : Row → Row) (l : List Row) (p : Nat) (hp : p < l.length) :
    rowAt (modifyAt f l p) p = f (rowAt l p) := by
  induction l generalizing p with
  | nil => simp at hp
  | cons r t ih =>
    cases p with
    | zero => rfl
    | succ n =>
      simp only [List.length_cons] at hp
      simpa [modifyAt, rowAt] using ih n (by omega)

theorem rowAt_modifyAt_ne (f : Row → Row) (l : List Row) (p q : Nat) (h : p ≠ q) :
    rowAt (modifyAt f l p) q = rowAt l q := by
  induction l generalizing p q with
  | nil => rfl
  | cons r t ih =>
    cases p with
    | zero =>
      cases q with
      | zero => exact absurd rfl h
      | succ m => rfl
    | succ n =>
      cases q with
      | zero => rfl
      | succ m =>
        simpa [modifyAt, rowAt] using ih n m (fun hnm => h (by omega))

theorem columnIndexFrom_spec (c : String) (l : List String) (i : Int) :
    columnIndexFrom c l i = -1 ∨
      ∃ k : Nat, columnIndexFrom c l i = i + k ∧ l.getD k "" = c ∧ k < l.length := by
  induction l generalizing i with
  | nil => exact Or.inl rfl
  | cons h t ih =>
    by_cases hc : h = c
    · refine Or.inr ⟨0, ?_, ?_, ?_⟩
      · simp [columnIndexFrom, hc]
      · simpa using hc
      · simp
    · rcases ih (i + 1) with h1 | ⟨k, hk1, hk2, hk3⟩
      · exact Or.inl (by simp [columnIndexFrom, hc, h1])
      · refine Or.inr ⟨k + 1, ?_, ?_, ?_⟩
        · simp only [columnIndexFrom, hc, if_false]
          rw [hk1]; push_cast; ring
        · simpa using hk2
        · simpa using hk3

theorem getColumnIndex_spec (headers : List String) (c : String)
    (h : getColumnIndex headers c ≠ -1) :
    ∃ k : Nat, getColumnIndex headers c = (k : Int) ∧ headers.getD k "" = c := by
  rcases columnIndexFrom_spec c headers 0 with h1 | ⟨k, hk1, hk2, _⟩
  · exact absurd h1 h
  · exact ⟨k, by simpa using hk1, hk2⟩

theorem getColumnIndex_names_distinct (headers : List String) (a b : String) (hab : a ≠ b)
    (ha : getColumnIndex headers a ≠ -1) (hb : getColumnIndex headers b ≠ -1) :
    getColumnIndex headers a ≠ getColumnIndex headers b := by
  rcases getColumnIndex_spec headers a ha with ⟨ka, hka, hka2⟩
  rcases getColumnIndex_spec headers b hb with ⟨kb, hkb, hkb2⟩
  intro heq
  rw [hka, hkb] at heq
  have hk : ka = kb := by exact_mod_cast heq
  exact hab (by rw [← hka2, ← hkb2, hk])

theorem strStartsWith_append_false (a x pre : String)
    (h : strStartsWith a pre = false) (hlen : pre.length ≤ a.length) :
    strStartsWith (a ++ x) pre = false := by
  unfold strStartsWith at h ⊢
  rw [Bool.eq_false_iff] at h ⊢
  intro hpf
  apply h
  rw [List.isPrefixOf_iff_prefix] at hpf ⊢
  have htl : (a ++ x).toList = a.toList ++ x.toList := String.data_append a x
  rw [htl] at hpf
  have hlen2 : pre.toList.length ≤ a.toList.length := hlen
  rw [List.prefix_iff_eq_take] at hpf ⊢
  rw [List.take_append_of_le_length hlen2] at hpf
  exact hpf

/-! ## Buffer-sheet change detection (SheetManager.gs) -/

/-- One entry returned by `getFilesMarkedForDeletion`. -/
structure DeletionItem where
  rowIndex : Nat
  originalFilename : String
  fileUrl : String
  fileId : String
  reason : String
deriving Repr, DecidableEq

/-- One entry returned by `getFilesMarkedForReactivation`. -/
structure ReactivationItem where
  rowIndex : Nat
  originalFilename : String
  changedFilename : String
  fileUrl : String
  fileId : String
  invoiceNumber : String
  emailSubject : String
  dateAdded : String
  previousReason : String
deriving Repr, DecidableEq

/-- The row filter of `getFilesMarkedForDeletion`: status is Deleted and the
reason does not already carry the machine prefix. -/
def deletionGuard (headers : List String) (row : Row) : Bool :=
  (safeGetCellValue row (getColumnIndex headers "Status") "" == STATUS_DELETED)
    && !(strStartsWith (safeGetCellValue row (getColumnIndex headers "Reason") "") "Deleted:")

/-- The row filter of `getFilesMarkedForReactivation`: status is Active while
the reason still carries a deletion prefix. -/
def reactGuard (headers : List String) (row : Row) : Bool :=
  (safeGetCellValue row (getColumnIndex headers "Status") "" == STATUS_ACTIVE)
    && strStartsWith (safeGetCellValue row (getColumnIndex headers "Reason") "") "Deleted:"

/-- Item built from a matching row of the deletion scan; `i` is the 0-based
index of the row inside `getValues()` (so the grid row is `i + 1`). -/
def mkDeletionItem (headers : List String) (row : Row) (i : Nat) : DeletionItem :=
  { rowIndex := i + 1
    originalFilename := safeGetCellValue row (getColumnIndex headers "Original File Name") ""
    fileUrl := safeGetCellValue row (getColumnIndex headers "File URL") ""
    fileId := safeGetCellValue row (getColumnIndex headers "File ID") ""
    reason := safeGetCellValue row (getColumnIndex headers "Reason") "" }

/-- Item built from a matching row of the reactivation scan. -/
def mkReactivationItem (headers : List String) (row : Row) (i : Nat) : ReactivationItem :=
  { rowIndex := i + 1
    originalFilename := safeGetCellValue row (getColumnIndex headers "Original File Name") ""
    changedFilename := safeGetCellValue row (getColumnIndex headers "Changed File Name") ""
    fileUrl := safeGetCellValue row (getColumnIndex headers "File URL") ""
    fileId := safeGetCellValue row (getColumnIndex headers "File ID") ""
    invoiceNumber := safeGetCellValue row (getColumnIndex headers "Invoice Number") ""
    emailSubject := safeGetCellValue row (getColumnIndex headers "Email Subject") ""
    dateAdded := safeGetCellValue row (getColumnIndex headers "Date Added") ""
    previousReason := safeGetCellValue row (getColumnIndex headers "Reason") "" }

/-- The row loop of `getFilesMarkedForDeletion` (`for i = 1; i < data.length`);
`i` is the `getValues()` index of the head row. -/
def deletionScan (headers : List String) : List Row → Nat → List DeletionItem
  | [], _ => []
  | row :: rest, i =>
    let tail := deletionScan headers rest (i + 1)
    if deletionGuard headers row then mkDeletionItem headers row i :: tail else tail

/-- The row loop of `getFilesMarkedForReactivation`. -/
def reactivationScan (headers : List String) : List Row → Nat → List ReactivationItem
  | [], _ => []
  | row :: rest, i =>
    let tail := reactivationScan headers rest (i + 1)
    if reactGuard headers row then mkReactivationItem headers row i :: tail else tail

/-- SheetManager.gs `getFilesMarkedForDeletion`.  The argument models the
sheet read: `Except.error` is the sheet engine throwing, which the function
catches, returning the empty list. -/
def getFilesMarkedForDeletion (bufferSheet : Except String RawSheet) : List DeletionItem :=
  match bufferSheet with
  | .error _ => []
  | .ok sheet =>
    if sheet.rows.length = 0 then []
    else deletionScan sheet.headers sheet.rows 1

/-- SheetManager.gs `getFilesMarkedForReactivation`, same error convention. -/
def getFilesMarkedForReactivation (bufferSheet : Except String RawSheet) : List ReactivationItem :=
  match bufferSheet with
  | .error _ => []
  | .ok sheet =>
    if sheet.rows.length = 0 then []
    else reactivationScan sheet.headers sheet.rows 1

/-! ## Scan lemmas -/

theorem deletionScan_sound (headers : List String) (rows : List Row) (i : Nat)
    (it : DeletionItem) (h : it ∈ deletionScan headers rows i) :
    ∃ p : Nat, p < rows.length ∧ it.rowIndex = i + p + 1 ∧
      deletionGuard headers (rowAt rows p) = true := by
  induction rows generalizing i with
  | nil => simp [deletionScan] at h
  | cons row rest ih =>
    simp only [deletionScan] at h
    by_cases hg : deletionGuard headers row = true
    · rw [if_pos hg] at h
      rcases List.mem_cons.mp h with h1 | h1
      · exact ⟨0, by simp, by simp [h1, mkDeletionItem], by simpa [rowAt] using hg⟩
      · rcases ih (i + 1) h1 with ⟨p, hp1, hp2, hp3⟩
        exact ⟨p + 1, by simpa using hp1, by omega, by simpa [rowAt] using hp3⟩
    · rw [if_neg hg] at h
      rcases ih (i + 1) h with ⟨p, hp1, hp2, hp3⟩
      exact ⟨p + 1, by simpa using hp1, by omega, by simpa [rowAt] using hp3⟩

theorem reactivationScan_sound (headers : List String) (rows : List Row) (i : Nat)
    (it : ReactivationItem) (h : it ∈ reactivationScan headers rows i) :
    ∃ p : Nat, p < rows.length ∧ it.rowIndex = i + p + 1 ∧
      reactGuard headers (rowAt rows p) = true := by
  induction rows generalizing i with
  | nil => simp [reactivationScan] at h
  | cons row rest ih =>
    simp only [reactivationScan] at h
    by_cases hg : reactGuard headers row = true
    · rw [if_pos hg] at h
      rcases List.mem_cons.mp h with h1 | h1
      · exact ⟨0, by simp, by simp [h1, mkReactivationItem], by simpa [rowAt] using hg⟩
      · rcases ih (i + 1) h1 with ⟨p, hp1, hp2, hp3⟩
        exact ⟨p + 1, by simpa using hp1, by omega, by simpa [rowAt] using hp3⟩
    · rw [if_neg hg] at h
      rcases ih (i + 1) h with ⟨p, hp1, hp2, hp3⟩
      exact ⟨p + 1, by simpa using hp1, by omega, by simpa [rowAt] using hp3⟩

theorem reactivationScan_covers (headers : List String) (rows : List Row) (i p : Nat)
    (hp : p < rows.length) (hg : reactGuard headers (rowAt rows p) = true) :
    ∃ it ∈ reactivationScan headers rows i, it.rowIndex = i + p + 1 := by
  induction rows generalizing i p with
  | nil => simp at hp
  | cons row rest ih =>
    cases p with
    | zero =>
      refine ⟨mkReactivationItem headers row i, ?_, rfl⟩
      simp only [reactivationScan]
      rw [if_pos (by simpa [rowAt] using hg)]
      exact List.mem_cons_self _ _
    | succ n =>
      have hn : n < rest.length := by simpa using hp
      rcases ih (i + 1) n hn (by simpa [rowAt] using hg) with ⟨it, hit, hidx⟩
      refine ⟨it, ?_, by omega⟩
      simp only [reactivationScan]
      by_cases hg0 : reactGuard headers row = true
      · rw [if_pos hg0]; exact List.mem_cons_of_mem _ hit
      · rw [if_neg hg0]; exact hit

/-! ## C3 and C10: properties of the detection pass -/

/-- C3: deletion is idempotent at the detection level — a Working row whose
status is Deleted and whose reason already starts with the machine prefix
"Deleted:" is excluded from the working set that `getFilesMarkedForDeletion`
returns, so an already-processed deletion is never re-applied. -/
theorem deletion_detection_excludes_processed (sheet : RawSheet) (p : Nat)
    (hp : p < sheet.rows.length)
    (hstatus : safeGetCellValue (rowAt sheet.rows p)
      (getColumnIndex sheet.headers "Status") "" = STATUS_DELETED)
    (hreason : strStartsWith (safeGetCellValue (rowAt sheet.rows p)
      (getColumnIndex sheet.headers "Reason") "") "Deleted:" = true) :
    ∀ it ∈ getFilesMarkedForDeletion (Except.ok sheet), it.rowIndex ≠ p + 2 := by
  intro it hit hidx
  have hit2 : it ∈ (if sheet.rows.length = 0 then ([] : List DeletionItem)
      else deletionScan sheet.headers sheet.rows 1) := hit
  by_cases hlen : sheet.rows.length = 0
  · rw [if_pos hlen] at hit2; simp at hit2
  · rw [if_neg hlen] at hit2
    rcases deletionScan_sound sheet.headers sheet.rows 1 it hit2 with ⟨k, hk1, hk2, hk3⟩
    have hkp : k = p := by omega
    subst hkp
    rw [deletionGuard, hstatus, hreason] at hk3
    simp at hk3

/-- Concrete buffer sheet exercising the hypotheses of the C3 theorem. -/
def c3Sheet : RawSheet :=
  { headers := ["Original File Name", "Changed File Name", "File URL", "File ID",
                "Message ID", "Invoice Number", "Status", "Reason"]
    rows := [[some "a.pdf", some "", some "u1", some "f1",
              some "", some "", some "Deleted", some "Deleted: dup (2024-01-01)"]] }

/-- Witness for C3 at a concrete sheet: the single already-deleted row is not
returned by the detection pass. -/
theorem deletion_detection_excludes_processed_witness :
    (getFilesMarkedForDeletion (Except.ok c3Sheet)).all
      (fun it => it.rowIndex != 0 + 2) = true := by
  have h := deletion_detection_excludes_processed c3Sheet 0 (by decide) (by decide) (by decide)
  rw [List.all_eq_true]
  intro it hit
  simpa using h it hit

/-- C10: the two detection functions catch every internal error and return the
empty list, so a reconciliation pass over an unreadable sheet reports zero
pending deletions and zero pending reactivations instead of failing. -/
theorem detection_empty_on_sheet_error (e : String) :
    getFilesMarkedForDeletion (Except.error e) = []
      ∧ getFilesMarkedForReactivation (Except.error e) = [] :=
  ⟨rfl, rfl⟩

/-! ## Reactivation machinery (SheetManager.gs) -/

/-- Abstract blob-store (Drive) state: folder/file placements.  Only identity
and equality of states matter to the verified properties. -/
structure DriveState where
  placements : List (String × String)
deriving Repr, DecidableEq

/-- SheetManager.gs `updateBufferSheetForReactivation`: sets status to Active,
rewrites the reason to the reactivation form keeping the previous reason,
resets attempts and stamps the modification time.  Columns are looked up by
header name and skipped when absent. -/
def updateBufferSheetForReactivation (sheet : RawSheet) (rowIndex : Nat) (ts : String) : RawSheet :=
  let headers := sheet.headers
  let s1 := maybeSetCell sheet rowIndex (getColumnIndex headers "Status") STATUS_ACTIVE
  let reasonIndex := getColumnIndex headers "Reason"
  let s2 := maybeSetCell s1 rowIndex reasonIndex
    ("Reactivated on " ++ ts ++ ". Previous: " ++ getSheetCellValue s1 rowIndex reasonIndex)
  let s3 := maybeSetCell s2 rowIndex (getColumnIndex headers "Processing Attempts") "0"
  maybeSetCell s3 rowIndex (getColumnIndex headers "Last Modified") ts

/-- SheetManager.gs `updateBufferSheetForDeletion`: sets status to Deleted,
prefixes the reason with "Deleted: " plus a timestamp, stamps the
modification time. -/
def updateBufferSheetForDeletion (sheet : RawSheet) (rowIndex : Nat) (reason ts : String) : RawSheet :=
  let headers := sheet.headers
  let s1 := maybeSetCell sheet rowIndex (getColumnIndex headers "Status") STATUS_DELETED
  let s2 := maybeSetCell s1 rowIndex (getColumnIndex headers "Reason")
    ("Deleted: " ++ reason ++ " (" ++ ts ++ ")")
  maybeSetCell s2 rowIndex (getColumnIndex headers "Last Modified") ts

/-- SheetManager.gs `hasValidAIData`: the stored changed filename is nonempty,
differs from the original, and the invoice number is nonblank. -/
def hasValidAIData (it : ReactivationItem) : Bool :=
  (it.changedFilename != "") && (it.changedFilename != it.originalFilename)
    && (it.invoiceNumber != "") && (jsTrim it.invoiceNumber != "")

/-- Position of the last dot in a character list (`lastIndexOf('.')`). -/
def lastDotPos : List Char → Option Nat
  | [] => none
  | c :: t =>
    match lastDotPos t with
    | some k => some (k + 1)
    | none => if c = '.' then some 0 else none

/-- `filename.substring(0, filename.lastIndexOf('.'))`; when there is no dot,
`lastIndexOf` is `-1` and `substring(0, -1)` clamps to the empty string. -/
def nameWithoutExtension (filename : String) : String :=
  match lastDotPos filename.toList with
  | none => ""
  | some k => String.mk (filename.toList.take k)

/-- The structured data recovered from a derived filename. -/
structure ParsedAIData where
  date : String
  vendorName : String
  invoiceNumber : String
  amount : String
deriving Repr, DecidableEq

/-- Helper for `jsSplit`: split a character list at a separator character. -/
def splitOnCharAux (sep : Char) : List Char → List (List Char)
  | [] => [[]]
  | c :: t =>
    match splitOnCharAux sep t with
    | [] => [[]]
    | h :: rest => if c = sep then [] :: h :: rest else (c :: h) :: rest

/-- JavaScript `s.split(sep)` for a single-character separator. -/
def jsSplit (s : String) (sep : Char) : List String :=
  (splitOnCharAux sep s.toList).map String.mk

/-- AIProcessor.gs `parseFilenameForAIData`: expects the derived form
`Date_Vendor_Invoice_Amount.ext`; fewer than four underscore-separated parts
before the extension yield `null`. -/
def parseFilenameForAIData (filename : String) : Option ParsedAIData :=
  let parts := jsSplit (nameWithoutExtension filename) '_'
  if parts.length ≥ 4 then
    some { date := parts.getD 0 ""
           vendorName := jsReplaceChar '_' ' ' (parts.getD 1 "")
           invoiceNumber := parts.getD 2 ""
           amount := parts.getD 3 "" }
  else none

/-- The `aiData` record assembled by `restoreToFinalSheet`. -/
structure RestoreAIData where
  date : String
  vendorName : String
  invoiceNumber : String
  amount : String
  transactionType : String
deriving Repr, DecidableEq

/-- The defaults-then-parse step of `restoreToFinalSheet`. -/
def restoreAIData (it : ReactivationItem) : RestoreAIData :=
  let base : RestoreAIData :=
    { date := "", vendorName := "", invoiceNumber := it.invoiceNumber,
      amount := "", transactionType := STATUS_INFLOW }
  if it.changedFilename ≠ "" ∧ it.changedFilename ≠ it.originalFilename then
    match parseFilenameForAIData it.changedFilename with
    | some p =>
      { base with date := p.date, vendorName := p.vendorName,
                  invoiceNumber := p.invoiceNumber, amount := p.amount }
    | none => base
  else base

/-- The 16-cell row appended by `restoreToFinalSheet` (Final-sheet column
order); the numeric AI-confidence default 0.8 is rendered as its string. -/
def restoreRowData (it : ReactivationItem) (uniqueId ts : String) : Row :=
  let aiData := restoreAIData it
  [ some (if it.changedFilename ≠ "" then it.changedFilename else it.originalFilename),
    some uniqueId,
    some it.fileId,
    some it.fileUrl,
    some "",
    some it.emailSubject,
    some "",
    some aiData.transactionType,
    some aiData.date,
    some aiData.vendorName,
    some aiData.invoiceNumber,
    some aiData.amount,
    some "restored",
    some "0.8",
    some ts,
    some ts ]

/-- SheetManager.gs `restoreToFinalSheet`: appends the restored record to the
Final sheet. -/
def restoreToFinalSheet (it : ReactivationItem) (uniqueId ts : String)
    (finalSheet : RawSheet) : RawSheet :=
  appendRow finalSheet (restoreRowData it uniqueId ts)

/-- State touched by the reconciliation pass: the Working (Buffer) sheet, the
Final sheet and the blob store. -/
structure ReconState where
  buffer : RawSheet
  finalSheet : RawSheet
  drive : DriveState
deriving Repr, DecidableEq

/-- SheetManager.gs `processFileReactivation`.  `ensureFile` models the Drive
step `ensureFileInBufferFolder`: `none` is the step throwing, in which case
the caller catches the error and no later step runs. -/
def processFileReactivation (ensureFile : ReactivationItem → DriveState → Option DriveState)
    (uniqueId ts : String) (it : ReactivationItem) (s : ReconState) : ReconState :=
  match ensureFile it s.drive with
  | none => s
  | some d =>
    let s1 : ReconState :=
      { s with drive := d,
               buffer := updateBufferSheetForReactivation s.buffer it.rowIndex ts }
    if hasValidAIData it then
      { s1 with finalSheet := restoreToFinalSheet it uniqueId ts s1.finalSheet }
    else s1

/-- The reactivation half of `processBufferChanges`: detect, then apply the
effect to each detected row (per-item errors are caught and skipped). -/
def reactivationPass (ensureFile : ReactivationItem → DriveState → Option DriveState)
    (uniqueId ts : String) (s : ReconState) : ReconState :=
  (getFilesMarkedForReactivation (Except.ok s.buffer)).foldl
    (fun st it => processFileReactivation ensureFile uniqueId ts it st) s

/-! ## Lemmas about the buffer-sheet update helpers -/

theorem maybeSetCell_headers (sheet : RawSheet) (r : Nat) (c : Int) (v : String) :
    (maybeSetCell sheet r c v).headers = sheet.headers := by
  unfold maybeSetCell setSheetCell
  split <;> rfl

theorem maybeSetCell_rows_length (sheet : RawSheet) (r : Nat) (c : Int) (v : String) :
    (maybeSetCell sheet r c v).rows.length = sheet.rows.length := by
  unfold maybeSetCell setSheetCell
  split
  · exact length_modifyAt _ _ _
  · rfl

theorem maybeSetCell_rowAt_ne (sheet : RawSheet) (r : Nat) (c : Int) (v : String)
    (q : Nat) (h : r - 2 ≠ q) :
    rowAt (maybeSetCell sheet r c v).rows q = rowAt sheet.rows q := by
  unfold maybeSetCell setSheetCell
  split
  · exact rowAt_modifyAt_ne _ _ _ _ h
  · rfl


theorem maybeSetCell_rowAt_self (sheet : RawSheet) (r : Nat) (c : Int) (v : String)
    (hq : r - 2 < sheet.rows.length) :
    rowAt (maybeSetCell sheet r c v).rows (r - 2)
      = if c ≠ -1 then setCellPad (rowAt sheet.rows (r - 2)) c.toNat v
        else rowAt sheet.rows (r - 2) := by
  unfold maybeSetCell setSheetCell
  by_cases hc : c ≠ -1
  · rw [if_pos hc, if_pos hc]
    exact rowAt_modifyAt_self _ _ _ hq
  · rw [if_neg hc, if_neg hc]

theorem updateReact_headers (sheet : RawSheet) (rowIndex : Nat) (ts : String) :
    (updateBufferSheetForReactivation sheet rowIndex ts).headers = sheet.headers := by
  unfold updateBufferSheetForReactivation
  simp only [maybeSetCell_headers]

theorem updateReact_rows_length (sheet : RawSheet) (rowIndex : Nat) (ts : String) :
    (updateBufferSheetForReactivation sheet rowIndex ts).rows.length = sheet.rows.length := by
  unfold updateBufferSheetForReactivation
  simp only [maybeSetCell_rows_length]

theorem updateReact_rowAt_ne (sheet : RawSheet) (rowIndex : Nat) (ts : String)
    (q : Nat) (h : rowIndex - 2 ≠ q) :
    rowAt (updateBufferSheetForReactivation sheet rowIndex ts).rows q = rowAt sheet.rows q := by
  unfold updateBufferSheetForReactivation
  simp only [maybeSetCell_rowAt_ne _ _ _ _ _ h]

/-- Core guard-falsification lemma: after `updateBufferSheetForReactivation`
touches a row, that row no longer satisfies the reactivation-detection guard,
because its reason has been rewritten to start with "Reactivated on ". -/
theorem reactGuard_updateReact (sheet : RawSheet) (rowIndex : Nat) (ts : String)
    (hq : rowIndex - 2 < sheet.rows.length) :
    reactGuard sheet.headers
      (rowAt (updateBufferSheetForReactivation sheet rowIndex ts).rows (rowIndex - 2)) = false := by
  by_cases hr : getColumnIndex sheet.headers "Reason" = -1
  · have hempty : ∀ row : Row,
        safeGetCellValue row (getColumnIndex sheet.headers "Reason") "" = "" := by
      intro row
      rw [hr]
      rfl
    rw [reactGuard, hempty]
    have hz : strStartsWith "" "Deleted:" = false := rfl
    rw [hz, Bool.and_false]
  · rcases getColumnIndex_spec sheet.headers "Reason" hr with ⟨k, hk, hkname⟩
    set nR := "Reactivated on " ++ ts ++ ". Previous: " ++ getSheetCellValue
      (maybeSetCell sheet rowIndex (getColumnIndex sheet.headers "Status") STATUS_ACTIVE)
      rowIndex (getColumnIndex sheet.headers "Reason") with hnR
    -- distinctness of the other written columns from the Reason column
    have hATT : getColumnIndex sheet.headers "Processing Attempts" ≠ -1 →
        (getColumnIndex sheet.headers "Processing Attempts").toNat ≠ k := by
      intro hcne
      rcases getColumnIndex_spec sheet.headers "Processing Attempts" hcne with ⟨ka, hka, _⟩
      have hne := getColumnIndex_names_distinct sheet.headers "Processing Attempts" "Reason"
        (by decide) hcne hr
      rw [hka, hk] at hne
      rw [hka]
      simpa using fun hEq => hne (by exact_mod_cast hEq)
    have hLM : getColumnIndex sheet.headers "Last Modified" ≠ -1 →
        (getColumnIndex sheet.headers "Last Modified").toNat ≠ k := by
      intro hcne
      rcases getColumnIndex_spec sheet.headers "Last Modified" hcne with ⟨ka, hka, _⟩
      have hne := getColumnIndex_names_distinct sheet.headers "Last Modified" "Reason"
        (by decide) hcne hr
      rw [hka, hk] at hne
      rw [hka]
      simpa using fun hEq => hne (by exact_mod_cast hEq)
    -- the reason cell of the updated row holds the rewritten reason
    have hcell : cellAt
        (rowAt (updateBufferSheetForReactivation sheet rowIndex ts).rows (rowIndex - 2)) k
        = some nR := by
      unfold updateBufferSheetForReactivation
      rw [maybeSetCell_rowAt_self _ _ _ _
        (by simp only [maybeSetCell_rows_length]; exact hq)]
      have hreasonStep : ∀ row : Row, cellAt (setCellPad row
          (getColumnIndex sheet.headers "Reason").toNat nR) k = some nR := by
        intro row
        have htn : (getColumnIndex sheet.headers "Reason").toNat = k := by rw [hk]; rfl
        rw [htn]
        exact cellAt_setCellPad_self _ _ _
      by_cases hlm : getColumnIndex sheet.headers "Last Modified" = -1
      · rw [if_neg (by simpa using hlm)]
        rw [maybeSetCell_rowAt_self _ _ _ _
          (by simp only [maybeSetCell_rows_length]; exact hq)]
        by_cases hat : getColumnIndex sheet.headers "Processing Attempts" = -1
        · rw [if_neg (by simpa using hat)]
          rw [maybeSetCell_rowAt_self _ _ _ _
            (by simp only [maybeSetCell_rows_length]; exact hq)]
          rw [if_pos (by simpa using hr), ← hnR]
          exact hreasonStep _
        · rw [if_pos (by simpa using hat)]
          rw [cellAt_setCellPad_ne _ _ _ _ (hATT hat)]
          rw [maybeSetCell_rowAt_self _ _ _ _
            (by simp only [maybeSetCell_rows_length]; exact hq)]
          rw [if_pos (by simpa using hr), ← hnR]
          exact hreasonStep _
      · rw [if_pos (by simpa using hlm)]
        rw [cellAt_setCellPad_ne _ _ _ _ (hLM hlm)]
        rw [maybeSetCell_rowAt_self _ _ _ _
          (by simp only [maybeSetCell_rows_length]; exact hq)]
        by_cases hat : getColumnIndex sheet.headers "Processing Attempts" = -1
        · rw [if_neg (by simpa using hat)]
          rw [maybeSetCell_rowAt_self _ _ _ _
            (by simp only [maybeSetCell_rows_length]; exact hq)]
          rw [if_pos (by simpa using hr), ← hnR]
          exact hreasonStep _
        · rw [if_pos (by simpa using hat)]
          rw [cellAt_setCellPad_ne _ _ _ _ (hATT hat)]
          rw [maybeSetCell_rowAt_self _ _ _ _
            (by simp only [maybeSetCell_rows_length]; exact hq)]
          rw [if_pos (by simpa using hr), ← hnR]
          exact hreasonStep _
    -- the value read by the guard is the rewritten reason
    have hval : safeGetCellValue
        (rowAt (updateBufferSheetForReactivation sheet rowIndex ts).rows (rowIndex - 2))
        (getColumnIndex sheet.headers "Reason") "" = nR := by
      unfold safeGetCellValue
      rw [if_neg (by rw [hk]; exact Int.not_lt.mpr (Int.ofNat_nonneg k))]
      have htn : (getColumnIndex sheet.headers "Reason").toNat = k := by rw [hk]; rfl
      rw [htn, hcell]
    -- the rewritten reason does not start with "Deleted:"
    have hsw : strStartsWith nR "Deleted:" = false := by
      rw [hnR, String.append_assoc, String.append_assoc]
      exact strStartsWith_append_false _ _ _ (by decide) (by decide)
    rw [reactGuard, hval, hsw, Bool.and_false]

/-! ## The reactivation pass is idempotent -/

theorem processReact_buffer_cases (ensureFile : ReactivationItem → DriveState → Option DriveState)
    (u t : String) (it : ReactivationItem) (s : ReconState) :
    (processFileReactivation ensureFile u t it s).buffer = s.buffer
      ∨ (processFileReactivation ensureFile u t it s).buffer
          = updateBufferSheetForReactivation s.buffer it.rowIndex t := by
  unfold processFileReactivation
  rcases ho : ensureFile it s.drive with _ | d
  · exact Or.inl rfl
  · right
    cases hv : hasValidAIData it <;> simp [hv]

theorem processReact_buffer_eq (ensureFile : ReactivationItem → DriveState → Option DriveState)
    (u t : String) (it : ReactivationItem) (s : ReconState)
    (h : (ensureFile it s.drive).isSome = true) :
    (processFileReactivation ensureFile u t it s).buffer
      = updateBufferSheetForReactivation s.buffer it.rowIndex t := by
  unfold processFileReactivation
  rcases ho : ensureFile it s.drive with _ | d
  · rw [ho] at h; simp at h
  · cases hv : hasValidAIData it <;> simp [hv]

theorem processReact_buffer_headers (ensureFile : ReactivationItem → DriveState → Option DriveState)
    (u t : String) (it : ReactivationItem) (s : ReconState) :
    (processFileReactivation ensureFile u t it s).buffer.headers = s.buffer.headers := by
  rcases processReact_buffer_cases ensureFile u t it s with h | h
  · rw [h]
  · rw [h, updateReact_headers]

theorem processReact_buffer_rows_length (ensureFile : ReactivationItem → DriveState → Option DriveState)
    (u t : String) (it : ReactivationItem) (s : ReconState) :
    (processFileReactivation ensureFile u t it s).buffer.rows.length
      = s.buffer.rows.length := by
  rcases processReact_buffer_cases ensureFile u t it s with h | h
  · rw [h]
  · rw [h, updateReact_rows_length]

theorem foldReact_buffer_shape (ensureFile : ReactivationItem → DriveState → Option DriveState)
    (u t : String) (L : List ReactivationItem) (s : ReconState) :
    (L.foldl (fun st it => processFileReactivation ensureFile u t it st) s).buffer.headers
        = s.buffer.headers
      ∧ (L.foldl (fun st it => processFileReactivation ensureFile u t it st) s).buffer.rows.length
        = s.buffer.rows.length := by
  induction L generalizing s with
  | nil => exact ⟨rfl, rfl⟩
  | cons it L ih =>
    rcases ih (processFileReactivation ensureFile u t it s) with ⟨h1, h2⟩
    refine ⟨?_, ?_⟩
    · rw [List.foldl_cons, h1, processReact_buffer_headers]
    · rw [List.foldl_cons, h2, processReact_buffer_rows_length]

/-- Fold invariant: if every guard-satisfying row is covered by a pending
item, then after processing all pending items no row satisfies the guard. -/
theorem foldReact_guard_false (ensureFile : ReactivationItem → DriveState → Option DriveState)
    (u t : String) (hEnsure : ∀ it d, (ensureFile it d).isSome = true)
    (L : List ReactivationItem) (s : ReconState)
    (hInv : ∀ p, p < s.buffer.rows.length →
      reactGuard s.buffer.headers (rowAt s.buffer.rows p) = false
        ∨ ∃ it ∈ L, it.rowIndex = p + 2) :
    ∀ p, p < (L.foldl (fun st it => processFileReactivation ensureFile u t it st) s).buffer.rows.length →
      reactGuard (L.foldl (fun st it => processFileReactivation ensureFile u t it st) s).buffer.headers
        (rowAt (L.foldl (fun st it => processFileReactivation ensureFile u t it st) s).buffer.rows p)
        = false := by
  induction L generalizing s with
  | nil =>
    intro p hp
    rcases hInv p hp with h | ⟨it, hit, _⟩
    · exact h
    · simp at hit
  | cons it L ih =>
    intro p hp
    rw [List.foldl_cons] at hp ⊢
    set s1 := processFileReactivation ensureFile u t it s with hs1
    have hbuf : s1.buffer = updateBufferSheetForReactivation s.buffer it.rowIndex t :=
      processReact_buffer_eq ensureFile u t it s (hEnsure it s.drive)
    refine ih s1 ?_ p hp
    intro p1 hp1
    have hp1s : p1 < s.buffer.rows.length := by
      rw [hbuf, updateReact_rows_length] at hp1
      exact hp1
    by_cases hpq : it.rowIndex - 2 = p1
    · left
      rw [hbuf, updateReact_headers, ← hpq]
      exact reactGuard_updateReact s.buffer it.rowIndex t (hpq ▸ hp1s)
    · rcases hInv p1 hp1s with h | ⟨it2, hit2, hidx2⟩
      · left
        rw [hbuf, updateReact_headers, updateReact_rowAt_ne _ _ _ _ hpq]
        exact h
      · rcases List.mem_cons.mp hit2 with h2 | h2
        · exfalso
          apply hpq
          rw [h2] at hidx2
          omega
        · exact Or.inr ⟨it2, h2, hidx2⟩

/-- C4: reactivation is idempotent.  Once a pass has processed every pending
reactivation (the Drive step succeeding), every touched row has status Active
and a reason rewritten to "Reactivated on ...", so it no longer satisfies the
reactivation-detection guard; a second pass detects nothing, performs no
mutation, and appends no duplicate Final-sheet row. -/
theorem reactivation_pass_idempotent
    (ensureFile : ReactivationItem → DriveState → Option DriveState)
    (u1 t1 u2 t2 : String) (s : ReconState)
    (hEnsure : ∀ it d, (ensureFile it d).isSome = true) :
    reactivationPass ensureFile u2 t2 (reactivationPass ensureFile u1 t1 s)
      = reactivationPass ensureFile u1 t1 s := by
  have hInv : ∀ p, p < s.buffer.rows.length →
      reactGuard s.buffer.headers (rowAt s.buffer.rows p) = false
        ∨ ∃ it ∈ getFilesMarkedForReactivation (Except.ok s.buffer), it.rowIndex = p + 2 := by
    intro p hp
    by_cases hg : reactGuard s.buffer.headers (rowAt s.buffer.rows p) = false
    · exact Or.inl hg
    · right
      have hg2 : reactGuard s.buffer.headers (rowAt s.buffer.rows p) = true := by
        revert hg; cases reactGuard s.buffer.headers (rowAt s.buffer.rows p) <;> simp
      rcases reactivationScan_covers s.buffer.headers s.buffer.rows 1 p hp hg2 with ⟨it, hit, hidx⟩
      refine ⟨it, ?_, by omega⟩
      show it ∈ getFilesMarkedForReactivation (Except.ok s.buffer)
      have : getFilesMarkedForReactivation (Except.ok s.buffer)
          = if s.buffer.rows.length = 0 then [] else reactivationScan s.buffer.headers s.buffer.rows 1 := rfl
      rw [this, if_neg (by omega)]
      exact hit
  have hguard := foldReact_guard_false ensureFile u1 t1 hEnsure
    (getFilesMarkedForReactivation (Except.ok s.buffer)) s hInv
  set s1 := reactivationPass ensureFile u1 t1 s with hs1
  have hfold : s1 = (getFilesMarkedForReactivation (Except.ok s.buffer)).foldl
      (fun st it => processFileReactivation ensureFile u1 t1 it st) s := rfl
  have hdet : getFilesMarkedForReactivation (Except.ok s1.buffer) = [] := by
    have heq : getFilesMarkedForReactivation (Except.ok s1.buffer)
        = if s1.buffer.rows.length = 0 then []
          else reactivationScan s1.buffer.headers s1.buffer.rows 1 := rfl
    rw [heq]
    by_cases hz : s1.buffer.rows.length = 0
    · rw [if_pos hz]
    · rw [if_neg hz]
      by_contra hne
      rcases List.exists_mem_of_ne_nil _ hne with ⟨it, hit⟩
      rcases reactivationScan_sound s1.buffer.headers s1.buffer.rows 1 it hit with ⟨p, hp, _, hg⟩
      have := hguard p (by rw [← hfold] at *; exact hp)
      rw [← hfold] at this
      rw [this] at hg
      exact Bool.false_ne_true hg
  show (getFilesMarkedForReactivation (Except.ok s1.buffer)).foldl
      (fun st it => processFileReactivation ensureFile u2 t2 it st) s1 = s1
  rw [hdet]
  rfl

/-- Concrete reconciliation state exercising the C4 theorem: one Active row
whose reason still carries the deletion prefix. -/
def c4State : ReconState :=
  { buffer :=
      { headers := ["Original File Name", "Changed File Name", "File URL", "File ID",
                    "Message ID", "Invoice Number", "Status", "Reason",
                    "Email Subject", "Email Sender", "Date Added", "Last Modified",
                    "Processing Attempts"]
        rows := [[some "a.pdf", some "2024-01-05_Acme_INV9_100.00.pdf", some "u1", some "f1",
                  some "", some "INV9", some "Active", some "Deleted: dup (2024-01-01)",
                  some "subj", some "", some "2024-01-01", some "2024-01-02", some "1"]] }
    finalSheet :=
      { headers := ["File Name", "Unique File ID", "Drive File ID", "File URL",
                    "Message ID", "Email Subject", "Email Sender", "Inflow/Outflow Status",
                    "Date", "Vendor Name", "Invoice Number", "Amount", "Document Type",
                    "AI Confidence", "Processing Date", "Last Modified"]
        rows := [] }
    drive := { placements := [] } }

/-- Witness for C4 at a concrete state with an always-succeeding Drive step. -/
theorem reactivation_pass_idempotent_witness :
    reactivationPass (fun _ d => some d) "u2" "t2"
        (reactivationPass (fun _ d => some d) "u1" "t1" c4State)
      = reactivationPass (fun _ d => some d) "u1" "t1" c4State :=
  reactivation_pass_idempotent (fun _ d => some d) "u1" "t1" "u2" "t2" c4State
    (fun _ _ => rfl)

/-! ## C1: deletion mutation ordering (SheetManager.gs `processFileDeletion`) -/

/-- SheetManager.gs `removeFromSheet`: deletes (bottom-up, hence expressible
as a filter) every data row whose cell under `columnHeader` equals
`valueToMatch`; a missing column or an empty sheet removes nothing. -/
def removeFromSheet (sheet : RawSheet) (valueToMatch columnHeader : String) : RawSheet :=
  if sheet.rows.length = 0 then sheet
  else
    let columnIndex := getColumnIndex sheet.headers columnHeader
    if columnIndex = -1 then sheet
    else
      { sheet with rows :=
          sheet.rows.filter (fun row => ¬(safeGetCellValue row columnIndex "" = valueToMatch)) }

/-- The full cross-store state the deletion path touches. -/
structure SyncState where
  drive : DriveState
  finalSheet : RawSheet
  inflowSheet : RawSheet
  outflowSheet : RawSheet
  buffer : RawSheet
deriving Repr, DecidableEq

/-- SheetManager.gs `processFileDeletion`, with each of its five steps given a
success slot in `ok` (`false` means that step throws; the error propagates to
the caller, leaving the mutations already applied).  `removeBlob` is the Drive
effect of `removeFileFromDriveFolders`.  The source order is kept: (1) blob
removal from the category folders, (2) Final-sheet row removal, (3) Inflow
then (4) Outflow row removal, and only last (5) the Working-row update. -/
def processFileDeletion (ok : Fin 5 → Bool) (removeBlob : DriveState → DriveState)
    (it : DeletionItem) (ts : String) (s : SyncState) : SyncState × Option String :=
  if ok 0 = false then (s, some "drive removal failed") else
  let s1 := { s with drive := removeBlob s.drive }
  if ok 1 = false then (s1, some "final sheet removal failed") else
  let s2 := { s1 with finalSheet := removeFromSheet s1.finalSheet it.fileUrl "File URL" }
  if ok 2 = false then (s2, some "inflow sheet removal failed") else
  let s3 := { s2 with inflowSheet := removeFromSheet s2.inflowSheet it.fileUrl "File URL" }
  if ok 3 = false then (s3, some "outflow sheet removal failed") else
  let s4 := { s3 with outflowSheet := removeFromSheet s3.outflowSheet it.fileUrl "File URL" }
  if ok 4 = false then (s4, some "buffer update failed") else
  ({ s4 with buffer := updateBufferSheetForDeletion s4.buffer it.rowIndex it.reason ts }, none)

/-- C1: the Working (Buffer) row is mutated only in the last step of
`processFileDeletion`, so when the blob removal or any of the three row
removals throws, the call reports an error and the Working row's status and
reason (its whole buffer sheet) are unchanged — a record is never marked
Deleted while downstream rows or blobs still exist. -/
theorem deletion_order_protects_buffer (ok : Fin 5 → Bool)
    (removeBlob : DriveState → DriveState) (it : DeletionItem) (ts : String) (s : SyncState)
    (h : ok 0 = false ∨ ok 1 = false ∨ ok 2 = false ∨ ok 3 = false) :
    (processFileDeletion ok removeBlob it ts s).2.isSome = true
      ∧ (processFileDeletion ok removeBlob it ts s).1.buffer = s.buffer := by
  unfold processFileDeletion
  rcases h0 : ok 0 with _ | _
  · simp
  · rcases h1 : ok 1 with _ | _
    · simp
    · rcases h2 : ok 2 with _ | _
      · simp
      · rcases h3 : ok 3 with _ | _
        · simp
        · rw [h0, h1, h2, h3] at h
          simp at h

/-- Witness for C1: a concrete failing step 1 with a concrete state. -/
theorem deletion_order_protects_buffer_witness :
    (processFileDeletion (fun _ => false) id
        { rowIndex := 2, originalFilename := "a.pdf", fileUrl := "u1", fileId := "f1",
          reason := "dup" } "t"
        { drive := { placements := [] },
          finalSheet := { headers := [], rows := [] },
          inflowSheet := { headers := [], rows := [] },
          outflowSheet := { headers := [], rows := [] },
          buffer := c3Sheet }).2.isSome = true
      ∧ (processFileDeletion (fun _ => false) id
        { rowIndex := 2, originalFilename := "a.pdf", fileUrl := "u1", fileId := "f1",
          reason := "dup" } "t"
        { drive := { placements := [] },
          finalSheet := { headers := [], rows := [] },
          inflowSheet := { headers := [], rows := [] },
          outflowSheet := { headers := [], rows := [] },
          buffer := c3Sheet }).1.buffer = c3Sheet :=
  deletion_order_protects_buffer (fun _ => false) id
    { rowIndex := 2, originalFilename := "a.pdf", fileUrl := "u1", fileId := "f1",
      reason := "dup" } "t"
    { drive := { placements := [] },
      finalSheet := { headers := [], rows := [] },
      inflowSheet := { headers := [], rows := [] },
      outflowSheet := { headers := [], rows := [] },
      buffer := c3Sheet }
    (Or.inl rfl)

/-! ## Categorization batch (SheetManager.gs `moveFilesToInflowOutflow`) -/

/-- Row of `getFinalSheetData`: the validated projection of a Final-sheet row. -/
structure FileData where
  fileName : String
  uniqueFileId : String
  driveFileId : String
  fileUrl : String
  messageId : String
  emailSubject : String
  emailSender : String
  inflowOutflowStatus : String
  date : String
  vendorName : String
  invoiceNumber : String
  amount : String
  documentType : String
  aiConfidence : String
  processingDate : String
deriving Repr, DecidableEq

/-- Field extraction of one Final-sheet row by header name. -/
def mkFileData (headers : List String) (row : Row) : FileData :=
  { fileName := safeGetCellValue row (getColumnIndex headers "File Name") ""
    uniqueFileId := safeGetCellValue row (getColumnIndex headers "Unique File ID") ""
    driveFileId := safeGetCellValue row (getColumnIndex headers "Drive File ID") ""
    fileUrl := safeGetCellValue row (getColumnIndex headers "File URL") ""
    messageId := safeGetCellValue row (getColumnIndex headers "Message ID") ""
    emailSubject := safeGetCellValue row (getColumnIndex headers "Email Subject") ""
    emailSender := safeGetCellValue row (getColumnIndex headers "Email Sender") ""
    inflowOutflowStatus := safeGetCellValue row (getColumnIndex headers "Inflow/Outflow Status") ""
    date := safeGetCellValue row (getColumnIndex headers "Date") ""
    vendorName := safeGetCellValue row (getColumnIndex headers "Vendor Name") ""
    invoiceNumber := safeGetCellValue row (getColumnIndex headers "Invoice Number") ""
    amount := safeGetCellValue row (getColumnIndex headers "Amount") ""
    documentType := safeGetCellValue row (getColumnIndex headers "Document Type") ""
    aiConfidence := safeGetCellValue row (getColumnIndex headers "AI Confidence") ""
    processingDate := safeGetCellValue row (getColumnIndex headers "Processing Date") "" }

/-- SheetManager.gs `getFinalSheetData`: rows whose file name, URL and
inflow/outflow status are all nonblank; others are skipped with a warning. -/
def getFinalSheetData (finalSheet : RawSheet) : List FileData :=
  if finalSheet.rows.length = 0 then []
  else
    (finalSheet.rows.map (mkFileData finalSheet.headers)).filter
      (fun fd => fd.fileName != "" && fd.fileUrl != "" && fd.inflowOutflowStatus != "")

/-- The 15-cell row appended by `addToInflowSheet` / `addToOutflowSheet`
(flow-sheet column order, ending with the Moved Date timestamp). -/
def flowRowData (fd : FileData) (ts : String) : Row :=
  [ some fd.fileName, some fd.uniqueFileId, some fd.driveFileId, some fd.fileUrl,
    some fd.messageId, some fd.emailSubject, some fd.emailSender, some fd.date,
    some fd.vendorName, some fd.invoiceNumber, some fd.amount, some fd.documentType,
    some fd.aiConfidence, some fd.processingDate, some ts ]

/-- SheetManager.gs `addToInflowSheet`. -/
def addToInflowSheet (inflowSheet : RawSheet) (fd : FileData) (ts : String) : RawSheet :=
  appendRow inflowSheet (flowRowData fd ts)

/-- SheetManager.gs `addToOutflowSheet`. -/
def addToOutflowSheet (outflowSheet : RawSheet) (fd : FileData) (ts : String) : RawSheet :=
  appendRow outflowSheet (flowRowData fd ts)

/-- SheetManager.gs `clearFinalSheet`: removes every data row, keeping the
header (no-op on an already empty sheet). -/
def clearFinalSheet (finalSheet : RawSheet) : RawSheet :=
  if finalSheet.rows.length = 0 then finalSheet else { finalSheet with rows := [] }

/-- The per-row routing predicate of the batch loop:
`fileData.inflowOutflowStatus.toLowerCase() === 'inflow'`. -/
def isInflowRow (fd : FileData) : Bool :=
  jsToLower fd.inflowOutflowStatus == STATUS_INFLOW

/-- State touched by the categorization batch. -/
structure FlowState where
  finalSheet : RawSheet
  inflowSheet : RawSheet
  outflowSheet : RawSheet
  drive : DriveState
deriving Repr, DecidableEq

/-- Aggregate counters of the batch result. -/
structure MoveResult where
  inflowCount : Nat
  outflowCount : Nat
  errorCount : Nat
deriving Repr, DecidableEq

/-- The per-file loop of `moveFilesToInflowOutflow`.  `ok i` models whether
the Drive move for the i-th file succeeds; the sheet append happens before
the Drive move, so a failed move leaves the appended row in place while the
error counter is bumped and the success counter is not. -/
def moveLoop (ok : Nat → Bool) (moveBlob : FileData → DriveState → DriveState) (ts : String) :
    List FileData → Nat → FlowState → MoveResult → FlowState × MoveResult
  | [], _, st, res => (st, res)
  | fd :: rest, i, st, res =>
    let st1 :=
      if isInflowRow fd then { st with inflowSheet := addToInflowSheet st.inflowSheet fd ts }
      else { st with outflowSheet := addToOutflowSheet st.outflowSheet fd ts }
    if ok i then
      let st2 := { st1 with drive := moveBlob fd st1.drive }
      let res2 :=
        if isInflowRow fd then { res with inflowCount := res.inflowCount + 1 }
        else { res with outflowCount := res.outflowCount + 1 }
      moveLoop ok moveBlob ts rest (i + 1) st2 res2
    else
      moveLoop ok moveBlob ts rest (i + 1) st1 { res with errorCount := res.errorCount + 1 }

/-- SheetManager.gs `moveFilesToInflowOutflow` (inside the lock): reads the
valid Final-sheet rows, routes each to Inflow/Outflow, and clears the Final
sheet only when no per-row error occurred. -/
def moveFilesToInflowOutflow (ok : Nat → Bool)
    (moveBlob : FileData → DriveState → DriveState) (ts : String)
    (st : FlowState) : FlowState × MoveResult :=
  let finalSheetData := getFinalSheetData st.finalSheet
  if finalSheetData.length = 0 then
    (st, { inflowCount := 0, outflowCount := 0, errorCount := 0 })
  else
    let out := moveLoop ok moveBlob ts finalSheetData 0 st
      { inflowCount := 0, outflowCount := 0, errorCount := 0 }
    if out.2.errorCount = 0 then
      ({ out.1 with finalSheet := clearFinalSheet out.1.finalSheet }, out.2)
    else
      (out.1, out.2)

theorem moveLoop_finalSheet (ok : Nat → Bool) (moveBlob : FileData → DriveState → DriveState)
    (ts : String) (datas : List FileData) (i : Nat) (st : FlowState) (res : MoveResult) :
    (moveLoop ok moveBlob ts datas i st res).1.finalSheet = st.finalSheet := by
  induction datas generalizing i st res with
  | nil => rfl
  | cons fd rest ih =>
    unfold moveLoop
    by_cases hin : isInflowRow fd
    · by_cases ho : ok i
      · rw [if_pos hin, if_pos ho]
        rw [ih]
      · rw [if_pos hin, if_neg ho]
        rw [ih]
    · by_cases ho : ok i
      · rw [if_neg hin, if_pos ho]
        rw [ih]
      · rw [if_neg hin, if_neg ho]
        rw [ih]

theorem moveLoop_inflowRows (ok : Nat → Bool) (moveBlob : FileData → DriveState → DriveState)
    (ts : String) (datas : List FileData) (i : Nat) (st : FlowState) (res : MoveResult) :
    (moveLoop ok moveBlob ts datas i st res).1.inflowSheet.rows
      = st.inflowSheet.rows ++ (datas.filter isInflowRow).map (fun fd => flowRowData fd ts) := by
  induction datas generalizing i st res with
  | nil => simp [moveLoop]
  | cons fd rest ih =>
    unfold moveLoop
    by_cases hin : isInflowRow fd
    · by_cases ho : ok i
      · rw [if_pos hin, if_pos ho, ih]
        simp [addToInflowSheet, appendRow, hin]
      · rw [if_pos hin, if_neg ho, ih]
        simp [addToInflowSheet, appendRow, hin]
    · by_cases ho : ok i
      · rw [if_neg hin, if_pos ho, ih]
        simp [hin]
      · rw [if_neg hin, if_neg ho, ih]
        simp [hin]

/-- C8: the terminal clear of the Final (PendingCategorization) sheet runs
only when the batch finished with zero per-row errors; on any error the Final
sheet is left exactly as it was, while the per-row appends already applied to
the Inflow sheet (successes and pre-failure appends alike) are not rolled
back.  When no error occurred and the batch was nonempty, the Final sheet is
emptied. -/
theorem final_clear_only_on_zero_errors (ok : Nat → Bool)
    (moveBlob : FileData → DriveState → DriveState) (ts : String) (st : FlowState) :
    ((moveFilesToInflowOutflow ok moveBlob ts st).2.errorCount ≠ 0 →
        (moveFilesToInflowOutflow ok moveBlob ts st).1.finalSheet = st.finalSheet)
      ∧ ((moveFilesToInflowOutflow ok moveBlob ts st).2.errorCount = 0 →
          getFinalSheetData st.finalSheet ≠ [] →
          (moveFilesToInflowOutflow ok moveBlob ts st).1.finalSheet.rows = [])
      ∧ (moveFilesToInflowOutflow ok moveBlob ts st).1.inflowSheet.rows
          = st.inflowSheet.rows
            ++ ((getFinalSheetData st.finalSheet).filter isInflowRow).map
                (fun fd => flowRowData fd ts) := by
  unfold moveFilesToInflowOutflow
  by_cases hz : (getFinalSheetData st.finalSheet).length = 0
  · rw [if_pos hz]
    have hnil : getFinalSheetData st.finalSheet = [] := List.length_eq_zero.mp hz
    refine ⟨fun h => rfl, fun _ h2 => absurd hnil h2, ?_⟩
    rw [hnil]
    simp
  · rw [if_neg hz]
    by_cases he : (moveLoop ok moveBlob ts (getFinalSheetData st.finalSheet) 0 st
        { inflowCount := 0, outflowCount := 0, errorCount := 0 }).2.errorCount = 0
    · rw [if_pos he]
      refine ⟨fun h => absurd he h, fun _ _ => ?_, ?_⟩
      · show (clearFinalSheet _).rows = []
        rw [moveLoop_finalSheet]
        unfold clearFinalSheet
        by_cases hfz : st.finalSheet.rows.length = 0
        · rw [if_pos hfz]
          exact List.length_eq_zero.mp hfz
        · rw [if_neg hfz]
      · show (moveLoop ok moveBlob ts _ 0 st _).1.inflowSheet.rows = _
        rw [moveLoop_inflowRows]
    · rw [if_neg he]
      exact ⟨fun _ => moveLoop_finalSheet _ _ _ _ _ _ _, fun h => absurd h he,
        moveLoop_inflowRows _ _ _ _ _ _ _⟩

/-- Concrete batch state for the C8 witness: one valid inflow row pending. -/
def c8State : FlowState :=
  { finalSheet :=
      { headers := ["File Name", "Unique File ID", "Drive File ID", "File URL",
                    "Message ID", "Email Subject", "Email Sender", "Inflow/Outflow Status",
                    "Date", "Vendor Name", "Invoice Number", "Amount", "Document Type",
                    "AI Confidence", "Processing Date", "Last Modified"]
        rows := [[some "a.pdf", some "id1", some "d1", some "u", some "", some "", some "",
                  some "inflow", some "2024-01-05", some "Acme", some "INV9", some "100.00",
                  some "invoice", some "0.9", some "t0", some "t0"]] }
    inflowSheet :=
      { headers := ["File Name", "Unique File ID", "Drive File ID", "File URL",
                    "Message ID", "Email Subject", "Email Sender", "Date", "Vendor Name",
                    "Invoice Number", "Amount", "Document Type", "AI Confidence",
                    "Processing Date", "Moved Date"]
        rows := [] }
    outflowSheet :=
      { headers := ["File Name", "Unique File ID", "Drive File ID", "File URL",
                    "Message ID", "Email Subject", "Email Sender", "Date", "Vendor Name",
                    "Invoice Number", "Amount", "Document Type", "AI Confidence",
                    "Processing Date", "Moved Date"]
        rows := [] }
    drive := { placements := [] } }

/-- Witness for C8: with the Drive move failing for the single row, the batch
reports one error and the Final sheet is left unchanged. -/
theorem final_clear_only_on_zero_errors_witness :
    (moveFilesToInflowOutflow (fun _ => false) (fun _ d => d) "t" c8State).2.errorCount ≠ 0
      ∧ (moveFilesToInflowOutflow (fun _ => false) (fun _ d => d) "t" c8State).1.finalSheet
        = c8State.finalSheet :=
  ⟨by decide,
    (final_clear_only_on_zero_errors (fun _ => false) (fun _ d => d) "t" c8State).1 (by decide)⟩

/-! ## C2: duplicate prevention (AIProcessor.gs) -/

/-- AIProcessor.gs `isDuplicateInFinalSheet`: linear scan of the Final sheet
for a row whose File URL cell equals the given URL; an empty sheet or a
missing File URL column reports no duplicate. -/
def isDuplicateInFinalSheet (finalSheet : RawSheet) (fileUrl : String) : Bool :=
  if finalSheet.rows.length = 0 then false
  else
    let fileUrlIndex := getColumnIndex finalSheet.headers "File URL"
    if fileUrlIndex = -1 then false
    else finalSheet.rows.any (fun row => safeGetCellValue row fileUrlIndex "" == fileUrl)

/-- The data of one Final-sheet insert performed by `addToFinalSheet`
(file info from the buffer row plus the validated AI data). -/
structure FinalInsert where
  newFilename : String
  uniqueId : String
  driveFileId : String
  fileUrl : String
  emailSubject : String
  transactionType : String
  date : String
  vendorName : String
  invoiceNumber : String
  amount : String
  documentType : String
  confidence : String
  processingDate : String
  lastModified : String
deriving Repr, DecidableEq

/-- The 16-cell row appended by AIProcessor.gs `addToFinalSheet`
(Final-sheet column order; Message ID and Email Sender are left blank). -/
def finalRowData (e : FinalInsert) : Row :=
  [ some e.newFilename, some e.uniqueId, some e.driveFileId, some e.fileUrl, some "",
    some e.emailSubject, some "", some e.transactionType, some e.date, some e.vendorName,
    some e.invoiceNumber, some e.amount, some e.documentType, some e.confidence,
    some e.processingDate, some e.lastModified ]

/-- AIProcessor.gs `addToFinalSheet`. -/
def addToFinalSheet (finalSheet : RawSheet) (e : FinalInsert) : RawSheet :=
  appendRow finalSheet (finalRowData e)

/-- The guarded Final-sheet insert of the AI processing loop (lines 86 and
105-108 of AIProcessor.gs): insert only when `isDuplicateInFinalSheet` is
false; otherwise skip, flagging the record as skipped rather than an error. -/
def guardedAddToFinalSheet (finalSheet : RawSheet) (e : FinalInsert) : RawSheet × Bool :=
  if !(isDuplicateInFinalSheet finalSheet e.fileUrl) then
    (addToFinalSheet finalSheet e, false)
  else (finalSheet, true)

/-- Number of data rows of a sheet whose File URL cell equals `url`. -/
def countRowsWithUrl (sheet : RawSheet) (url : String) : Nat :=
  (sheet.rows.filter (fun row =>
    safeGetCellValue row (getColumnIndex sheet.headers "File URL") "" == url)).length

/-- Initial state of the C2 counterexample run: one pending Final-sheet row
with File URL "u", empty category sheets. -/
def c2Flow0 : FlowState :=
  { finalSheet :=
      { headers := ["File Name", "Unique File ID", "Drive File ID", "File URL",
                    "Message ID", "Email Subject", "Email Sender", "Inflow/Outflow Status",
                    "Date", "Vendor Name", "Invoice Number", "Amount", "Document Type",
                    "AI Confidence", "Processing Date", "Last Modified"]
        rows := [[some "a.pdf", some "id1", some "d1", some "u", some "", some "", some "",
                  some "inflow", some "2024-01-05", some "Acme", some "INV9", some "100.00",
                  some "invoice", some "0.9", some "t0", some "t0"]] }
    inflowSheet :=
      { headers := ["File Name", "Unique File ID", "Drive File ID", "File URL",
                    "Message ID", "Email Subject", "Email Sender", "Date", "Vendor Name",
                    "Invoice Number", "Amount", "Document Type", "AI Confidence",
                    "Processing Date", "Moved Date"]
        rows := [] }
    outflowSheet :=
      { headers := ["File Name", "Unique File ID", "Drive File ID", "File URL",
                    "Message ID", "Email Subject", "Email Sender", "Date", "Vendor Name",
                    "Invoice Number", "Amount", "Document Type", "AI Confidence",
                    "Processing Date", "Moved Date"]
        rows := [] }
    drive := { placements := [] } }

/-- First categorization run on the counterexample state: the Drive move
fails, so the row stays in the Final sheet while its Inflow append remains. -/
def c2Flow1 : FlowState :=
  (moveFilesToInflowOutflow (fun _ => false) (fun _ d => d) "t1" c2Flow0).1

/-- Second (retry) run: the Drive move now succeeds and the same row is
appended to the Inflow sheet again. -/
def c2Flow2 : FlowState :=
  (moveFilesToInflowOutflow (fun _ => true) (fun _ d => d) "t2" c2Flow1).1

/-- Counterexample to C2: `moveFilesToInflowOutflow` performs no duplicate
check before inserting into a category table, so the documented
fail-then-rerun sequence leaves the Inflow sheet holding two rows with the
same blob reference (File URL "u") — the claimed invariant is violated by the
engine's own retry policy. -/
theorem category_insert_duplicates_counterexample :
    countRowsWithUrl c2Flow2.inflowSheet "u" = 2 := by decide

theorem countRowsWithUrl_append (sheet : RawSheet) (row : Row) (u : String) :
    countRowsWithUrl (appendRow sheet row) u
      = countRowsWithUrl sheet u
        + (if safeGetCellValue row (getColumnIndex sheet.headers "File URL") "" == u
           then 1 else 0) := by
  unfold countRowsWithUrl appendRow
  simp only [List.filter_append, List.length_append]
  congr 1
  by_cases h : safeGetCellValue row (getColumnIndex sheet.headers "File URL") "" == u
  · rw [if_pos h]
    simp [List.filter, h]
  · rw [if_neg h]
    simp only [Bool.not_eq_true] at h
    simp [List.filter, h]

theorem countRowsWithUrl_eq_zero_of_not_duplicate (finalSheet : RawSheet) (url : String)
    (hcol : getColumnIndex finalSheet.headers "File URL" ≠ -1)
    (hdup : isDuplicateInFinalSheet finalSheet url = false) :
    countRowsWithUrl finalSheet url = 0 := by
  unfold isDuplicateInFinalSheet at hdup
  unfold countRowsWithUrl
  by_cases hz : finalSheet.rows.length = 0
  · rw [List.length_eq_zero.mp hz]
    rfl
  · rw [if_neg hz, if_neg hcol] at hdup
    rw [List.length_eq_zero, List.filter_eq_nil_iff]
    exact List.any_eq_false.mp hdup

/-- C2 amended: the duplicate check guards only the Final-sheet insert of the
AI-processing path — there, a record whose File URL already appears is
skipped, so the Final sheet never accumulates two rows with the same blob
reference (File URL at its Final-sheet column position 3). -/
theorem final_insert_skip_preserves_uniqueness (finalSheet : RawSheet) (e : FinalInsert)
    (h3 : getColumnIndex finalSheet.headers "File URL" = 3)
    (hU : ∀ u, countRowsWithUrl finalSheet u ≤ 1) :
    ∀ u, countRowsWithUrl (guardedAddToFinalSheet finalSheet e).1 u ≤ 1 := by
  intro u
  by_cases hdup : isDuplicateInFinalSheet finalSheet e.fileUrl
  · unfold guardedAddToFinalSheet
    rw [hdup]
    exact hU u
  · have hdupf : isDuplicateInFinalSheet finalSheet e.fileUrl = false := by
      revert hdup; cases isDuplicateInFinalSheet finalSheet e.fileUrl <;> simp
    unfold guardedAddToFinalSheet addToFinalSheet
    rw [hdupf]
    show countRowsWithUrl (appendRow finalSheet (finalRowData e)) u ≤ 1
    rw [countRowsWithUrl_append, h3]
    have hcell : safeGetCellValue (finalRowData e) 3 "" = e.fileUrl := rfl
    rw [hcell]
    by_cases hu : e.fileUrl == u
    · have huq : e.fileUrl = u := eq_of_beq hu
      rw [if_pos hu, ← huq]
      rw [countRowsWithUrl_eq_zero_of_not_duplicate finalSheet e.fileUrl (by rw [h3]; decide) hdupf]
    · rw [if_neg hu]
      have := hU u
      omega

theorem countRowsWithUrl_le_rows_length (sheet : RawSheet) (u : String) :
    countRowsWithUrl sheet u ≤ sheet.rows.length :=
  List.length_filter_le _ _

/-- Witness for the amended C2 theorem at a concrete Final sheet already
holding the URL being inserted: the insert is skipped and uniqueness holds. -/
theorem final_insert_skip_preserves_uniqueness_witness :
    getColumnIndex c2Flow0.finalSheet.headers "File URL" = 3
      ∧ ∀ u, countRowsWithUrl (guardedAddToFinalSheet c2Flow0.finalSheet
          { newFilename := "b.pdf", uniqueId := "id2", driveFileId := "d2", fileUrl := "u",
            emailSubject := "", transactionType := "inflow", date := "2024-01-06",
            vendorName := "Acme", invoiceNumber := "INV10", amount := "5.00",
            documentType := "invoice", confidence := "0.9", processingDate := "t1",
            lastModified := "t1" }).1 u ≤ 1 :=
  ⟨by decide,
    final_insert_skip_preserves_uniqueness c2Flow0.finalSheet
      { newFilename := "b.pdf", uniqueId := "id2", driveFileId := "d2", fileUrl := "u",
        emailSubject := "", transactionType := "inflow", date := "2024-01-06",
        vendorName := "Acme", invoiceNumber := "INV10", amount := "5.00",
        documentType := "invoice", confidence := "0.9", processingDate := "t1",
        lastModified := "t1" }
      (by decide)
      (fun u => le_trans (countRowsWithUrl_le_rows_length c2Flow0.finalSheet u) (by decide))⟩

/-! ## AI response sanitization (AIProcessor.gs) -/

/-- Decimal digits of a char list read as a natural number. -/
def natOfDigits (l : List Char) : Nat :=
  l.foldl (fun n c => 10 * n + (c.toNat - 48)) 0

/-- JavaScript `parseFloat` restricted to plain decimal notation (exponent
notation is not modelled; the strings this code feeds it never carry one):
skip leading whitespace, read an optional sign, then the longest prefix of
the shape digits[.digits]; no digit at all is NaN (`none`). -/
def parseFloatJS (s : String) : Option ℚ :=
  let cs := s.toList.dropWhile Char.isWhitespace
  let signAndRest : ℚ × List Char :=
    match cs with
    | '-' :: t => (-1, t)
    | '+' :: t => (1, t)
    | _ => (1, cs)
  let intDigits := signAndRest.2.takeWhile Char.isDigit
  let rest := signAndRest.2.dropWhile Char.isDigit
  let fracDigits :=
    match rest with
    | '.' :: t => t.takeWhile Char.isDigit
    | _ => []
  if intDigits.isEmpty ∧ fracDigits.isEmpty then none
  else some (signAndRest.1 *
    ((natOfDigits intDigits : ℚ) + (natOfDigits fracDigits : ℚ) / 10 ^ fracDigits.length))

/-- JavaScript `toFixed(2)`: two fractional digits, rounding half away from
zero (the `-0.00` corner is rendered unsigned here). -/
def toFixed2 (q : ℚ) : String :=
  let n : ℤ := ⌊|q| * 100 + 1 / 2⌋
  let sgn := if q < 0 ∧ n ≠ 0 then "-" else ""
  let fp := n % 100
  sgn ++ toString (n / 100) ++ "." ++ (if fp < 10 then "0" ++ toString fp else toString fp)

/-- JavaScript number rendering, modelled only as far as the sanitizers need
it: integers render exactly; other rationals fall back to a num/den form (the
inputs these functions compare against are strings in practice, and the
numeric amount path below does not go through this). -/
def ratToString (q : ℚ) : String :=
  if q.den = 1 then toString q.num else toString q.num ++ "/" ++ toString q.den

/-- JavaScript `x.toString()` for the modelled values. -/
def jsToString : JSVal → String
  | .undef => "undefined"
  | .str s => s
  | .num q => ratToString q

/-- The shape test `/^\d{4}-\d{2}-\d{2}$/`. -/
def isYYYYMMDD (s : String) : Bool :=
  match s.toList with
  | [a, b, c, d, e, f, g, h, i, j] =>
    a.isDigit && b.isDigit && c.isDigit && d.isDigit && (e == '-')
      && f.isDigit && g.isDigit && (h == '-') && i.isDigit && j.isDigit
  | _ => false

/-- AIProcessor.gs `cleanAndValidateDate`.  `today` is the formatted current
date; `jsDateParse` models the host `new Date(...)` parse rendered through
`formatDateForFilename` (`none` = invalid date).  A string already in the
`YYYY-MM-DD` shape that parses as a valid date is kept verbatim; otherwise the
generic parse result is used; otherwise today. -/
def cleanAndValidateDate (today : String) (jsDateParse : JSVal → Option String)
    (v : JSVal) : String :=
  if falsy v then today
  else
    match v with
    | .str s =>
      if isYYYYMMDD s ∧ (jsDateParse v).isSome then s
      else
        match jsDateParse v with
        | some d => d
        | none => today
    | _ =>
      match jsDateParse v with
      | some d => d
      | none => today

/-- The invalid-filename characters of the first text replace. -/
def isBadFilenameChar (c : Char) : Bool :=
  c == '<' || c == '>' || c == ':' || c == '"' || c == '/' || c == '\\'
    || c == '|' || c == '?' || c == '*' || decide (c.toNat ≤ 31)

/-- Helper: replace every run of characters satisfying `p` by one `r`. -/
def collapseRunsAux (p : Char → Bool) (r : Char) (inRun : Bool) : List Char → List Char
  | [] => []
  | c :: t =>
    if p c then
      if inRun then collapseRunsAux p r true t
      else r :: collapseRunsAux p r true t
    else c :: collapseRunsAux p r false t

/-- The `replace(/x+/g, y)` pattern. -/
def collapseRuns (p : Char → Bool) (r : Char) (l : List Char) : List Char :=
  collapseRunsAux p r false l

/-- Remove one leading underscore (one half of `replace(/^_|_$/g, '')`). -/
def dropLeadUnderscore : List Char → List Char
  | '_' :: t => t
  | l => l

/-- The character pipeline of `cleanAndValidateText`: trim, invalid filename
characters and non-printable-ASCII to underscores, whitespace runs and
underscore runs collapsed to single underscores, one leading and one trailing
underscore stripped. -/
def cleanTextString (s : String) : String :=
  let l0 := (jsTrim s).toList
  let l1 := l0.map (fun c => if isBadFilenameChar c then '_' else c)
  let l2 := l1.map (fun c => if decide (c.toNat < 32) || decide (126 < c.toNat) then '_' else c)
  let l3 := collapseRuns (fun c => c.isWhitespace) '_' l2
  let l4 := collapseRuns (fun c => c == '_') '_' l3
  String.mk (((dropLeadUnderscore l4).reverse |> dropLeadUnderscore).reverse)

/-- AIProcessor.gs `cleanAndValidateText`: non-strings and empty strings fall
back to the default, as does a value that cleans to the empty string. -/
def cleanAndValidateText (v : JSVal) (defaultValue : String) : String :=
  match v with
  | .str s =>
    if s = "" then defaultValue
    else
      let cleaned := cleanTextString s
      if cleaned = "" then defaultValue else cleaned
  | _ => defaultValue

/-- The character strip of `cleanAndValidateAmount`: currency symbols, commas,
whitespace and parentheses are removed first, then everything but digits,
dots and minus signs — the net effect keeps exactly digits, dots and minus
signs. -/
def stripAmountChars (s : String) : String :=
  String.mk (s.toList.filter (fun c => c.isDigit || c == '.' || c == '-'))

/-- AIProcessor.gs `cleanAndValidateAmount`.  A falsy input (including the
number 0) gives "0.00"; a numeric input round-trips through
`toString`/`parseFloat` back to itself, so it is rendered directly with
`toFixed(2)`; a string is stripped, checked for the parenthesised negative
form, parsed, and rendered with two fractional digits; anything unparsable
gives "0.00". -/
def cleanAndValidateAmount (v : JSVal) : String :=
  if falsy v then "0.00"
  else
    match v with
    | .num q => toFixed2 q
    | _ =>
      let s := jsToString v
      let cleaned := stripAmountChars s
      let isNegative := s.toList.contains '(' && s.toList.contains ')'
      match parseFloatJS cleaned with
      | none => "0.00"
      | some parsed => toFixed2 (if isNegative then -|parsed| else parsed)

/-- The accepted document types of `cleanAndValidateDocumentType`. -/
def validDocTypes : List String :=
  ["invoice", "receipt", "bill", "statement", "contract", "other"]

/-- AIProcessor.gs `cleanAndValidateDocumentType`: a missing value and any
value whose lower-cased, trimmed form is outside the accepted list give
"unknown"; an accepted value is kept in its cleaned form. -/
def cleanAndValidateDocumentType (v : JSVal) : String :=
  if falsy v then "unknown"
  else
    let cleaned := jsTrim (jsToLower (jsToString v))
    if cleaned ∈ validDocTypes then cleaned else "unknown"

def inflowSynonyms : List String :=
  ["income", "revenue", "payment_received", "credit", "deposit"]

def outflowSynonyms : List String :=
  ["expense", "cost", "payment_made", "debit", "withdrawal", "bill", "purchase"]

/-- AIProcessor.gs `cleanAndValidateTransactionType`: direct match, then
synonym containment, defaulting to inflow. -/
def cleanAndValidateTransactionType (v : JSVal) : String :=
  if falsy v then STATUS_INFLOW
  else
    let cleaned := jsTrim (jsToLower (jsToString v))
    if cleaned = "inflow" ∨ cleaned = "outflow" then cleaned
    else if inflowSynonyms.any (fun syn => strIncludes cleaned syn) then STATUS_INFLOW
    else if outflowSynonyms.any (fun syn => strIncludes cleaned syn) then STATUS_OUTFLOW
    else STATUS_INFLOW

/-- `parseFloat` on a modelled value: numbers parse to themselves, strings go
through `parseFloatJS`, absent values are NaN. -/
def parseFloatOfJSVal : JSVal → Option ℚ
  | .num q => some q
  | .str s => parseFloatJS s
  | .undef => none

/-- AIProcessor.gs `cleanAndValidateConfidence`: a falsy input — which
includes a supplied numeric 0 — and an unparsable input give the 0.8 default;
otherwise the parsed value is clamped into [0, 1]. -/
def cleanAndValidateConfidence (v : JSVal) : ℚ :=
  if falsy v then 4 / 5
  else
    match parseFloatOfJSVal v with
    | none => 4 / 5
    | some parsed => max 0 (min 1 parsed)

/-- An AI response object: every field may be absent. -/
structure AIResponse where
  date : JSVal
  vendorName : JSVal
  invoiceNumber : JSVal
  amount : JSVal
  documentType : JSVal
  transactionType : JSVal
  confidence : JSVal
deriving Repr, DecidableEq

/-- The fully-sanitized record produced by `validateAndCleanAIResponse`. -/
structure ValidatedAIData where
  date : String
  vendorName : String
  invoiceNumber : String
  amount : String
  documentType : String
  transactionType : String
  confidence : ℚ
deriving Repr, DecidableEq

/-- `generateUniqueId().substring(0, 8)`. -/
def uniqueIdShort (uniqueId : String) : String :=
  String.mk (uniqueId.toList.take 8)

/-- AIProcessor.gs `validateAndCleanAIResponse`.  `data = none` models a
non-object response: the guard at the top throws and the surrounding catch
returns the safe defaults (documentType "unknown", transactionType inflow,
confidence 0.5).  Otherwise every field is sanitized independently, then the
two residual repairs on vendor name and amount are applied. -/
def validateAndCleanAIResponse (today uniqueId : String)
    (jsDateParse : JSVal → Option String) (data : Option AIResponse) : ValidatedAIData :=
  match data with
  | none =>
    { date := today, vendorName := "Unknown_Vendor", invoiceNumber := uniqueIdShort uniqueId,
      amount := "0.00", documentType := "unknown", transactionType := STATUS_INFLOW,
      confidence := 1 / 2 }
  | some d =>
    let validated : ValidatedAIData :=
      { date := cleanAndValidateDate today jsDateParse d.date
        vendorName := cleanAndValidateText d.vendorName "Unknown_Vendor"
        invoiceNumber := cleanAndValidateText d.invoiceNumber (uniqueIdShort uniqueId)
        amount := cleanAndValidateAmount d.amount
        documentType := cleanAndValidateDocumentType d.documentType
        transactionType := cleanAndValidateTransactionType d.transactionType
        confidence := cleanAndValidateConfidence d.confidence }
    let v1 :=
      if validated.vendorName = "" ∨ validated.vendorName = "Unknown_Vendor" then
        { validated with vendorName := "Unknown_Vendor" }
      else validated
    if v1.amount = "" ∨ v1.amount = "0" then { v1 with amount := "0.00" } else v1

/-! ## C5, C6, C7: sanitizer properties -/

theorem stringMk_cons_ne_empty (c : Char) (l : List Char) : String.mk (c :: l) ≠ "" := by
  intro h
  have h2 : (String.mk (c :: l)).toList = ("" : String).toList := congrArg String.toList h
  exact List.cons_ne_nil c l h2

theorem toList_ne_nil_of_ne_empty (s : String) (h : s ≠ "") : s.toList ≠ [] := by
  intro he
  apply h
  cases s with
  | mk data =>
    have h2 : data = [] := he
    rw [h2]

theorem uniqueIdShort_ne_empty (uniqueId : String) (h : uniqueId ≠ "") :
    uniqueIdShort uniqueId ≠ "" := by
  unfold uniqueIdShort
  rcases hl : uniqueId.toList with _ | ⟨c, t⟩
  · exact absurd hl (toList_ne_nil_of_ne_empty uniqueId h)
  · exact stringMk_cons_ne_empty c (t.take 7)

theorem isYYYYMMDD_ne_empty (s : String) (h : isYYYYMMDD s = true) : s ≠ "" := by
  intro he
  rw [he] at h
  exact absurd h (by decide)

theorem cleanAndValidateDate_ne_empty (today : String) (jsDateParse : JSVal → Option String)
    (v : JSVal) (htoday : today ≠ "")
    (hparse : ∀ w d, jsDateParse w = some d → d ≠ "") :
    cleanAndValidateDate today jsDateParse v ≠ "" := by
  cases v with
  | str s =>
    simp only [cleanAndValidateDate]
    by_cases hf : falsy (JSVal.str s) = true
    · rw [if_pos hf]
      exact htoday
    · rw [if_neg hf]
      by_cases hok : isYYYYMMDD s = true ∧ (jsDateParse (JSVal.str s)).isSome = true
      · rw [if_pos hok]
        exact isYYYYMMDD_ne_empty s hok.1
      · rw [if_neg hok]
        rcases hp : jsDateParse (JSVal.str s) with _ | dd
        · exact htoday
        · exact hparse _ dd hp
  | undef =>
    simp only [cleanAndValidateDate]
    rw [if_pos (by decide : falsy JSVal.undef = true)]
    exact htoday
  | num q =>
    simp only [cleanAndValidateDate]
    by_cases hf : falsy (JSVal.num q) = true
    · rw [if_pos hf]
      exact htoday
    · rw [if_neg hf]
      rcases hp : jsDateParse (JSVal.num q) with _ | dd
      · exact htoday
      · exact hparse _ dd hp

theorem cleanAndValidateText_ne_empty (v : JSVal) (dflt : String) (h : dflt ≠ "") :
    cleanAndValidateText v dflt ≠ "" := by
  cases v with
  | str s =>
    simp only [cleanAndValidateText]
    by_cases hs : s = ""
    · rw [if_pos hs]
      exact h
    · rw [if_neg hs]
      by_cases hc : cleanTextString s = ""
      · rw [if_pos hc]
        exact h
      · rw [if_neg hc]
        exact hc
  | undef => exact h
  | num q => exact h

theorem mem_validDocTypes_ne_empty (s : String) (h : s ∈ validDocTypes) : s ≠ "" := by
  simp only [validDocTypes, List.mem_cons, List.not_mem_nil, or_false] at h
  rcases h with rfl | rfl | rfl | rfl | rfl | rfl <;> decide

theorem cleanAndValidateDocumentType_ne_empty (v : JSVal) :
    cleanAndValidateDocumentType v ≠ "" := by
  unfold cleanAndValidateDocumentType
  by_cases hf : falsy v = true
  · rw [if_pos hf]
    decide
  · rw [if_neg hf]
    by_cases hm : jsTrim (jsToLower (jsToString v)) ∈ validDocTypes
    · rw [if_pos hm]
      exact mem_validDocTypes_ne_empty _ hm
    · rw [if_neg hm]
      decide

theorem cleanAndValidateTransactionType_mem (v : JSVal) :
    cleanAndValidateTransactionType v = "inflow"
      ∨ cleanAndValidateTransactionType v = "outflow" := by
  unfold cleanAndValidateTransactionType
  by_cases hf : falsy v = true
  · rw [if_pos hf]
    exact Or.inl rfl
  · rw [if_neg hf]
    by_cases hd : jsTrim (jsToLower (jsToString v)) = "inflow"
        ∨ jsTrim (jsToLower (jsToString v)) = "outflow"
    · rw [if_pos hd]
      exact hd
    · rw [if_neg hd]
      by_cases hi : inflowSynonyms.any
          (fun syn => strIncludes (jsTrim (jsToLower (jsToString v))) syn) = true
      · rw [if_pos hi]
        exact Or.inl rfl
      · rw [if_neg hi]
        by_cases ho : outflowSynonyms.any
            (fun syn => strIncludes (jsTrim (jsToLower (jsToString v))) syn) = true
        · rw [if_pos ho]
          exact Or.inr rfl
        · rw [if_neg ho]
          exact Or.inl rfl

theorem cleanAndValidateConfidence_range (v : JSVal) :
    0 ≤ cleanAndValidateConfidence v ∧ cleanAndValidateConfidence v ≤ 1 := by
  unfold cleanAndValidateConfidence
  by_cases hf : falsy v = true
  · rw [if_pos hf]
    norm_num
  · rw [if_neg hf]
    rcases parseFloatOfJSVal v with _ | q
    · norm_num
    · constructor
      · exact le_max_left 0 _
      · exact max_le (by norm_num) (min_le_left 1 q)

theorem vac_some_date_eq (today uniqueId : String) (jsDateParse : JSVal → Option String)
    (d : AIResponse) :
    (validateAndCleanAIResponse today uniqueId jsDateParse (some d)).date
      = cleanAndValidateDate today jsDateParse d.date := by
  simp only [validateAndCleanAIResponse]
  split_ifs <;> rfl

theorem vac_some_invoice_eq (today uniqueId : String) (jsDateParse : JSVal → Option String)
    (d : AIResponse) :
    (validateAndCleanAIResponse today uniqueId jsDateParse (some d)).invoiceNumber
      = cleanAndValidateText d.invoiceNumber (uniqueIdShort uniqueId) := by
  simp only [validateAndCleanAIResponse]
  split_ifs <;> rfl

theorem vac_some_docType_eq (today uniqueId : String) (jsDateParse : JSVal → Option String)
    (d : AIResponse) :
    (validateAndCleanAIResponse today uniqueId jsDateParse (some d)).documentType
      = cleanAndValidateDocumentType d.documentType := by
  simp only [validateAndCleanAIResponse]
  split_ifs <;> rfl

theorem vac_some_transType_eq (today uniqueId : String) (jsDateParse : JSVal → Option String)
    (d : AIResponse) :
    (validateAndCleanAIResponse today uniqueId jsDateParse (some d)).transactionType
      = cleanAndValidateTransactionType d.transactionType := by
  simp only [validateAndCleanAIResponse]
  split_ifs <;> rfl

theorem vac_some_conf_eq (today uniqueId : String) (jsDateParse : JSVal → Option String)
    (d : AIResponse) :
    (validateAndCleanAIResponse today uniqueId jsDateParse (some d)).confidence
      = cleanAndValidateConfidence d.confidence := by
  simp only [validateAndCleanAIResponse]
  split_ifs <;> rfl

theorem vac_some_vendor_ne (today uniqueId : String) (jsDateParse : JSVal → Option String)
    (d : AIResponse) :
    (validateAndCleanAIResponse today uniqueId jsDateParse (some d)).vendorName ≠ "" := by
  simp only [validateAndCleanAIResponse]
  split_ifs with h1 h2 h3
  · intro he
    have he2 : ("Unknown_Vendor" : String) = "" := he
    exact absurd he2 (by decide)
  · intro he
    have he2 : ("Unknown_Vendor" : String) = "" := he
    exact absurd he2 (by decide)
  · intro he
    exact h1 (Or.inl he)
  · intro he
    exact h1 (Or.inl he)

theorem vac_some_amount_ne (today uniqueId : String) (jsDateParse : JSVal → Option String)
    (d : AIResponse) :
    (validateAndCleanAIResponse today uniqueId jsDateParse (some d)).amount ≠ "" := by
  simp only [validateAndCleanAIResponse]
  split_ifs with h1 h2 h3
  · intro he
    have he2 : ("0.00" : String) = "" := he
    exact absurd he2 (by decide)
  · intro he
    exact h2 (Or.inl he)
  · intro he
    have he2 : ("0.00" : String) = "" := he
    exact absurd he2 (by decide)
  · intro he
    exact h3 (Or.inl he)

/-- C5: for every AI response — including one missing every field — the
validated record has all seven fields populated: nonblank date, vendor name,
invoice number, amount and document type, a transaction type in
{inflow, outflow}, and a confidence in [0, 1].  The hypotheses say only that
the host supplies a nonblank formatted current date, a nonempty unique id,
and nonblank renderings of successfully parsed dates. -/
theorem enrichment_always_fully_populated (today uniqueId : String)
    (jsDateParse : JSVal → Option String) (data : Option AIResponse)
    (htoday : today ≠ "") (huid : uniqueId ≠ "")
    (hparse : ∀ w d, jsDateParse w = some d → d ≠ "") :
    (validateAndCleanAIResponse today uniqueId jsDateParse data).date ≠ ""
      ∧ (validateAndCleanAIResponse today uniqueId jsDateParse data).vendorName ≠ ""
      ∧ (validateAndCleanAIResponse today uniqueId jsDateParse data).invoiceNumber ≠ ""
      ∧ (validateAndCleanAIResponse today uniqueId jsDateParse data).amount ≠ ""
      ∧ (validateAndCleanAIResponse today uniqueId jsDateParse data).documentType ≠ ""
      ∧ ((validateAndCleanAIResponse today uniqueId jsDateParse data).transactionType = "inflow"
          ∨ (validateAndCleanAIResponse today uniqueId jsDateParse data).transactionType
              = "outflow")
      ∧ 0 ≤ (validateAndCleanAIResponse today uniqueId jsDateParse data).confidence
      ∧ (validateAndCleanAIResponse today uniqueId jsDateParse data).confidence ≤ 1 := by
  cases data with
  | none =>
    refine ⟨htoday, ?_, uniqueIdShort_ne_empty uniqueId huid, ?_, ?_, Or.inl rfl, ?_, ?_⟩
    · show ("Unknown_Vendor" : String) ≠ ""
      decide
    · show ("0.00" : String) ≠ ""
      decide
    · show ("unknown" : String) ≠ ""
      decide
    · show (0 : ℚ) ≤ 1 / 2
      norm_num
    · show (1 / 2 : ℚ) ≤ 1
      norm_num
  | some d =>
    refine ⟨?_, vac_some_vendor_ne today uniqueId jsDateParse d, ?_,
      vac_some_amount_ne today uniqueId jsDateParse d, ?_, ?_, ?_, ?_⟩
    · rw [vac_some_date_eq]
      exact cleanAndValidateDate_ne_empty today jsDateParse d.date htoday hparse
    · rw [vac_some_invoice_eq]
      exact cleanAndValidateText_ne_empty _ _ (uniqueIdShort_ne_empty uniqueId huid)
    · rw [vac_some_docType_eq]
      exact cleanAndValidateDocumentType_ne_empty d.documentType
    · rw [vac_some_transType_eq]
      exact cleanAndValidateTransactionType_mem d.transactionType
    · rw [vac_some_conf_eq]
      exact (cleanAndValidateConfidence_range d.confidence).1
    · rw [vac_some_conf_eq]
      exact (cleanAndValidateConfidence_range d.confidence).2

/-- The all-fields-missing AI response used by the C5 witness. -/
def emptyAIResponse : AIResponse :=
  { date := JSVal.undef, vendorName := JSVal.undef, invoiceNumber := JSVal.undef,
    amount := JSVal.undef, documentType := JSVal.undef,
    transactionType := JSVal.undef, confidence := JSVal.undef }

/-- Witness for C5 at the response missing every field. -/
theorem enrichment_always_fully_populated_witness :
    (validateAndCleanAIResponse "2024-06-01" "abcdef1234" (fun _ => none)
        (some emptyAIResponse)).date ≠ ""
      ∧ (validateAndCleanAIResponse "2024-06-01" "abcdef1234" (fun _ => none)
          (some emptyAIResponse)).vendorName ≠ ""
      ∧ (validateAndCleanAIResponse "2024-06-01" "abcdef1234" (fun _ => none)
          (some emptyAIResponse)).invoiceNumber ≠ ""
      ∧ (validateAndCleanAIResponse "2024-06-01" "abcdef1234" (fun _ => none)
          (some emptyAIResponse)).amount ≠ ""
      ∧ (validateAndCleanAIResponse "2024-06-01" "abcdef1234" (fun _ => none)
          (some emptyAIResponse)).documentType ≠ ""
      ∧ ((validateAndCleanAIResponse "2024-06-01" "abcdef1234" (fun _ => none)
          (some emptyAIResponse)).transactionType = "inflow"
        ∨ (validateAndCleanAIResponse "2024-06-01" "abcdef1234" (fun _ => none)
          (some emptyAIResponse)).transactionType = "outflow")
      ∧ 0 ≤ (validateAndCleanAIResponse "2024-06-01" "abcdef1234" (fun _ => none)
          (some emptyAIResponse)).confidence
      ∧ (validateAndCleanAIResponse "2024-06-01" "abcdef1234" (fun _ => none)
          (some emptyAIResponse)).confidence ≤ 1 :=
  enrichment_always_fully_populated "2024-06-01" "abcdef1234" (fun _ => none)
    (some emptyAIResponse) (by decide) (by decide)
    (fun w d h => Option.noConfusion h)

/-- Counterexample to C6: the sanitizer does not map out-of-enumeration or
missing document types to "other" — both a missing value and an unrecognized
value yield "unknown", a value itself outside the claimed enumeration. -/
theorem documentType_unknown_counterexample :
    cleanAndValidateDocumentType JSVal.undef = "unknown"
      ∧ cleanAndValidateDocumentType JSVal.undef ≠ "other"
      ∧ cleanAndValidateDocumentType (JSVal.str "memo") = "unknown"
      ∧ "unknown" ∉ validDocTypes := by
  refine ⟨rfl, by decide, ?_, by decide⟩
  decide

/-- C6 amended: every output of the document-type sanitizer is either a
member of the enumeration {invoice, receipt, bill, statement, contract,
other} or the fallback "unknown"; a missing value and any value whose
lower-cased trimmed form is outside the enumeration map to "unknown", and a
value inside the enumeration is kept in that cleaned form. -/
theorem documentType_snaps_or_unknown (v : JSVal) :
    (cleanAndValidateDocumentType v = "unknown"
        ∨ cleanAndValidateDocumentType v ∈ validDocTypes)
      ∧ (falsy v = true → cleanAndValidateDocumentType v = "unknown")
      ∧ (falsy v = false → jsTrim (jsToLower (jsToString v)) ∉ validDocTypes →
          cleanAndValidateDocumentType v = "unknown")
      ∧ (falsy v = false → jsTrim (jsToLower (jsToString v)) ∈ validDocTypes →
          cleanAndValidateDocumentType v = jsTrim (jsToLower (jsToString v))) := by
  unfold cleanAndValidateDocumentType
  by_cases hf : falsy v = true
  · rw [if_pos hf]
    exact ⟨Or.inl rfl, fun _ => rfl, fun hff => absurd hf (by rw [hff]; decide),
      fun hff => absurd hf (by rw [hff]; decide)⟩
  · rw [if_neg hf]
    by_cases hm : jsTrim (jsToLower (jsToString v)) ∈ validDocTypes
    · rw [if_pos hm]
      exact ⟨Or.inr hm, fun hft => absurd hft hf, fun _ hnm => absurd hm hnm,
        fun _ _ => rfl⟩
    · rw [if_neg hm]
      exact ⟨Or.inl rfl, fun hft => absurd hft hf, fun _ _ => rfl,
        fun _ hmm => absurd hmm hm⟩

/-- Witness for the amended C6 theorem: "Receipt " cleans to "receipt" and is
kept; "memo" is outside the enumeration and maps to "unknown". -/
theorem documentType_snaps_or_unknown_witness :
    cleanAndValidateDocumentType (JSVal.str "Receipt ")
        = jsTrim (jsToLower (jsToString (JSVal.str "Receipt ")))
      ∧ cleanAndValidateDocumentType (JSVal.str "memo") = "unknown" :=
  ⟨(documentType_snaps_or_unknown (JSVal.str "Receipt ")).2.2.2 (by decide) (by decide),
    (documentType_snaps_or_unknown (JSVal.str "memo")).2.2.1 (by decide) (by decide)⟩

/-- Counterexample to C7: a supplied numeric confidence of 0 is falsy in
JavaScript, so the sanitizer returns the 0.8 default instead of the claimed
clamped value 0. -/
theorem confidence_zero_counterexample :
    cleanAndValidateConfidence (JSVal.num 0) = 4 / 5
      ∧ cleanAndValidateConfidence (JSVal.num 0) ≠ 0 := by
  constructor
  · rfl
  · rw [show cleanAndValidateConfidence (JSVal.num 0) = 4 / 5 from rfl]
    norm_num

/-- C7 amended: the confidence sanitizer always returns a value in [0, 1]; a
missing value, the (falsy) number 0 and an unparsable value give the 0.8
default, and any other supplied number is clamped into [0, 1]. -/
theorem confidence_clamped_or_default (v : JSVal) :
    (0 ≤ cleanAndValidateConfidence v ∧ cleanAndValidateConfidence v ≤ 1)
      ∧ (v = JSVal.undef → cleanAndValidateConfidence v = 4 / 5)
      ∧ (v = JSVal.num 0 → cleanAndValidateConfidence v = 4 / 5)
      ∧ (∀ q : ℚ, v = JSVal.num q → q ≠ 0 →
          cleanAndValidateConfidence v = max 0 (min 1 q)) := by
  refine ⟨cleanAndValidateConfidence_range v, ?_, ?_, ?_⟩
  · rintro rfl
    rfl
  · rintro rfl
    rfl
  · rintro q rfl hq
    unfold cleanAndValidateConfidence
    rw [if_neg (by simpa [falsy] using hq)]
    rfl

/-- Witness for the amended C7 theorem: 1.5 is clamped to 1. -/
theorem confidence_clamped_or_default_witness :
    cleanAndValidateConfidence (JSVal.num (3 / 2)) = max 0 (min 1 (3 / 2 : ℚ)) :=
  (confidence_clamped_or_default (JSVal.num (3 / 2))).2.2.2 (3 / 2) rfl (by norm_num)

/-! ## C9: restore of a reactivated record with an unparsable filename -/

/-- C9: when a reactivated record is restored without re-enrichment (it has
valid stored AI data) but its stored changed filename has fewer than four
underscore-separated segments before the extension, the filename parse
returns `null` and the restore appends a Final-sheet row with empty date,
vendor name and amount, transaction type "inflow", document type "restored"
and the default AI confidence 0.8. -/
theorem restore_short_filename_defaults (it : ReactivationItem) (uniqueId ts : String)
    (finalSheet : RawSheet)
    (hValid : hasValidAIData it = true)
    (hParts : (jsSplit (nameWithoutExtension it.changedFilename) '_').length < 4) :
    parseFilenameForAIData it.changedFilename = none
      ∧ restoreToFinalSheet it uniqueId ts finalSheet
        = appendRow finalSheet
            [ some it.changedFilename, some uniqueId, some it.fileId, some it.fileUrl,
              some "", some it.emailSubject, some "", some "inflow", some "", some "",
              some it.invoiceNumber, some "", some "restored", some "0.8", some ts, some ts ] := by
  have hne : it.changedFilename ≠ "" ∧ it.changedFilename ≠ it.originalFilename := by
    simp only [hasValidAIData, Bool.and_eq_true, bne_iff_ne, ne_eq] at hValid
    exact ⟨hValid.1.1.1, hValid.1.1.2⟩
  have hparse : parseFilenameForAIData it.changedFilename = none := by
    unfold parseFilenameForAIData
    rw [if_neg (by omega)]
  refine ⟨hparse, ?_⟩
  unfold restoreToFinalSheet restoreRowData restoreAIData
  rw [if_pos hne, hparse]
  rw [if_pos hne.1]
  rfl

/-- Concrete reactivation item for the C9 witness: a changed filename with a
single segment before the extension. -/
def c9Item : ReactivationItem :=
  { rowIndex := 2, originalFilename := "orig.pdf", changedFilename := "scan.pdf",
    fileUrl := "u9", fileId := "f9", invoiceNumber := "INV-1", emailSubject := "s",
    dateAdded := "2024-01-01", previousReason := "Deleted: dup (t)" }

/-- Witness for C9 at a concrete item and an empty Final sheet. -/
theorem restore_short_filename_defaults_witness :
    parseFilenameForAIData c9Item.changedFilename = none
      ∧ restoreToFinalSheet c9Item "uid1" "t9"
          { headers := ["File Name", "Unique File ID", "Drive File ID", "File URL",
                        "Message ID", "Email Subject", "Email Sender", "Inflow/Outflow Status",
                        "Date", "Vendor Name", "Invoice Number", "Amount", "Document Type",
                        "AI Confidence", "Processing Date", "Last Modified"]
            rows := [] }
        = appendRow
          { headers := ["File Name", "Unique File ID", "Drive File ID", "File URL",
                        "Message ID", "Email Subject", "Email Sender", "Inflow/Outflow Status",
                        "Date", "Vendor Name", "Invoice Number", "Amount", "Document Type",
                        "AI Confidence", "Processing Date", "Last Modified"]
            rows := [] }
          [ some c9Item.changedFilename, some "uid1", some c9Item.fileId, some c9Item.fileUrl,
            some "", some c9Item.emailSubject, some "", some "inflow", some "", some "",
            some c9Item.invoiceNumber, some "", some "restored", some "0.8", some "t9",
            some "t9" ] :=
  restore_short_filename_defaults c9Item "uid1" "t9"
    { headers := ["File Name", "Unique File ID", "Drive File ID", "File URL",
                  "Message ID", "Email Subject", "Email Sender", "Inflow/Outflow Status",
                  "Date", "Vendor Name", "Invoice Number", "Amount", "Document Type",
                  "AI Confidence", "Processing Date", "Last Modified"]
      rows := [] }
    (by decide) (by decide)
